import Mathlib

/-!
Chrome OS EC keyboard emulation (`src/common/keyboard.c`).

A shallow embedding of the scan-code encoder (`matrix_callback`) and of the 8042 host
protocol state machine (`handle_keyboard_data`, `handle_keyboard_command`), followed by the
theorems that settle the specification's statements about them.

Conventions of the embedding.

* C integers are `Nat` (unsigned bytes, `uint16_t` table entries, enum values) or `Int`
  (`int`, `int8_t`, `int32_t`).
* A C array is a function from the index to the element; every access whose index the code
  does not itself keep inside the declared bounds is checked explicitly and yields
  `Fault.out_of_bounds`.
* `ASSERT(e)` prints and then loops forever when `e` is false; that is `Fault.assert_failed`.
* The caller's `output` buffer of `handle_keyboard_data` / `handle_keyboard_command` is only
  ever written through `output[out_len++] = x`, so it is the list of the bytes written, in
  order, and `out_len` is its length.
-/

namespace Keyboard

/-! ## Values from headers that are not among the sources -/

/-- Modelled from the spec: `MAX_SCAN_CODE_LEN` of the missing `i8042.h`, the capacity of the
scan-code and resend buffers (the maximum scan-code length, 4 bytes). -/
def MAX_SCAN_CODE_LEN : Nat := 4

/-- Modelled from the spec: `enum scancode_set_list` of the missing `keyboard.h`; the
"get current set" sentinel is 0. -/
def SCANCODE_GET_SET : Nat := 0

/-- Modelled from the spec: `enum scancode_set_list` of the missing `keyboard.h`; Set 1 is
the value 1 (the console command sets the value "to 1 or 2"). -/
def SCANCODE_SET_1 : Nat := 1

/-- Modelled from the spec: `enum scancode_set_list` of the missing `keyboard.h`; Set 2 is
the value 2. -/
def SCANCODE_SET_2 : Nat := 2

/-- Modelled from the spec: `enum ec_error_list` of the missing `common.h`; only the
enumerators used by `keyboard.c`, which are pairwise distinct values. -/
inductive ec_error_list
  | EC_SUCCESS
  | EC_ERROR_UNKNOWN
  | EC_ERROR_UNIMPLEMENTED
  | EC_ERROR_INVAL
  deriving DecidableEq, Repr

/-- The two ways in which a C function of this file can fail to return. -/
inductive Fault
  /-- `ASSERT(expr)` with a false `expr`: the message is printed and the macro never returns
  (`while (1) usleep(1000000);`). -/
  | assert_failed
  /-- An array is indexed outside its declared bounds (undefined behaviour). -/
  | out_of_bounds
  deriving DecidableEq, Repr

/-- The macro `ASSERT(expr)` followed by the rest of the function. -/
def ASSERT {α : Type} (expr : Bool) (rest : Except Fault α) : Except Fault α :=
  if expr then rest else .error .assert_failed

/-! ## The scan-code tables -/

/-- The macro `CROS_ROW_NUM`. -/
def CROS_ROW_NUM : Nat := 8

/-- The macro `CROS_COL_NUM`. -/
def CROS_COL_NUM : Nat := 13

/-- The table `scancode_set1[CROS_ROW_NUM][CROS_COL_NUM]`. -/
def scancode_set1 : List (List Nat) :=
  [ [0x0000, 0x003A, 0x0005, 0x0030, 0x0009, 0x0073, 0x0031, 0x0000, 0x000d,
                                             0x0000, 0xe038, 0x0000, 0x0000],
    [0x0000, 0x0001, 0x000c, 0x0022, 0x0083, 0x0000, 0x0023, 0x0000, 0x0028,
                                             0x0001, 0x0000, 0x000e, 0x0078],
    [0x001d, 0x000f, 0x0004, 0x0014, 0x000b, 0x001b, 0x0015, 0x0056, 0x001a,
                                             0x000a, 0x0073, 0x0000, 0x0000],
    [0x0000, 0x0029, 0x0006, 0x0006, 0x0003, 0x0000, 0x0007, 0x0000, 0x000c,
                                             0x0000, 0x0000, 0x002b, 0x0079],
    [0xe01d, 0x001e, 0x0020, 0x0021, 0x001f, 0x0025, 0x0024, 0x0000, 0x0027,
                                             0x0026, 0x002b, 0x001c, 0x0000],
    [0x0000, 0x002c, 0x002e, 0x002f, 0x002d, 0x0033, 0x0032, 0x002a, 0x0035,
                                             0x0034, 0x0000, 0x0039, 0x0000],
    [0x0000, 0x0002, 0x0004, 0x0005, 0x0003, 0x0009, 0x0008, 0x0000, 0x000b,
                                             0x000a, 0x0038, 0xe072, 0xe074],
    [0x0000, 0x0010, 0x0012, 0x0013, 0x0011, 0x0017, 0x0016, 0x0036, 0x0019,
                                             0x0018, 0x0000, 0xe075, 0xe06b] ]

/-- The table `scancode_set2[CROS_ROW_NUM][CROS_COL_NUM]`. -/
def scancode_set2 : List (List Nat) :=
  [ [0x0000, 0xe01f, 0x003b, 0x0032, 0x0044, 0x0051, 0x0031, 0x0000, 0x0055,
                                             0x0000, 0xe011, 0x0000, 0x0000],
    [0x0000, 0x0076, 0x003e, 0x0034, 0x0083, 0x0000, 0x0033, 0x0000, 0x0052,
                                             0x0043, 0x0000, 0x0066, 0x0067],
    [0x0014, 0x000d, 0x003d, 0x002c, 0x0040, 0x005b, 0x0035, 0x0061, 0x0054,
                                             0x0042, 0x0051, 0x0000, 0x0000],
    [0x0000, 0x000e, 0x003c, 0x002e, 0x003f, 0x0000, 0x0036, 0x0000, 0x004e,
                                             0x0000, 0x0000, 0x005d, 0x0064],
    [0xe014, 0x001c, 0x0023, 0x002b, 0x001b, 0x0042, 0x003b, 0x0000, 0x004c,
                                             0x004b, 0x005d, 0x005a, 0x0000],
    [0x0000, 0x001a, 0x0021, 0x002a, 0x0022, 0x0041, 0x003a, 0x0012, 0x004a,
                                             0x0049, 0x0000, 0x0029, 0x0000],
    [0x0000, 0x0016, 0x0026, 0x0025, 0x001e, 0x003e, 0x003d, 0x0000, 0x0045,
                                             0x0046, 0x0011, 0xe050, 0xe04d],
    [0x0000, 0x0015, 0x0024, 0x002d, 0x001d, 0x0043, 0x003c, 0x0059, 0x004d,
                                             0x0044, 0x0000, 0xe048, 0xe04b] ]

/-- The entry of a table at a position inside its declared bounds. -/
def entry (table : List (List Nat)) (row col : Nat) : Nat :=
  (table.getD row []).getD col 0

/-- The read `table[row][col]` of a `uint16_t [CROS_ROW_NUM][CROS_COL_NUM]` array with signed
indices: the entry when both indices lie inside the declared bounds, and an out-of-bounds
access otherwise. -/
def table_read (table : List (List Nat)) (row col : Int) : Except Fault Nat :=
  if 0 ≤ row ∧ row < CROS_ROW_NUM ∧ 0 ≤ col ∧ col < CROS_COL_NUM then
    .ok (entry table row.toNat col.toNat)
  else
    .error .out_of_bounds

/-! ## `matrix_callback` -/

/-- The store `a[i] = v` into an array. -/
def store (a : Nat → Nat) (i v : Nat) : Nat → Nat :=
  fun j => if j = i then v else a j

/-- What `matrix_callback` leaves behind when it returns: the return value and the contents
of the two out-parameters `scan_code` and `*len`. -/
structure Encoded where
  ret : ec_error_list
  scan_code : Nat → Nat
  len : Int

/-- The byte sequence reported by `matrix_callback`: the first `len` bytes of `scan_code`. -/
def Encoded.bytes (r : Encoded) : List Nat :=
  (List.range r.len.toNat).map r.scan_code

/-- Lines 139-179 of `matrix_callback`: everything after `make_code` has been read from the
table of `code_set`; `*len` is 0 on entry. `make_code` is a `uint16_t`, so `make_code >> 8`
fits the `uint8_t` element it is stored in. -/
def matrix_callback_output (pressed : Int) (code_set : Nat) (scan_code : Nat → Nat)
    (make_code : Nat) : Except Fault Encoded :=
  if make_code = 0 then
    .ok ⟨.EC_ERROR_UNIMPLEMENTED, scan_code, 0⟩
  else
    -- Output the make code (from table)
    let r : Encoded :=
      if make_code ≥ 0x0100 then
        ⟨.EC_SUCCESS, store (store scan_code 0 (make_code >>> 8)) 1 (make_code &&& 0xff), 0 + 2⟩
      else
        ⟨.EC_SUCCESS, store scan_code 0 (make_code &&& 0xff), 0 + 1⟩
    if code_set = SCANCODE_SET_1 then
      -- OR 0x80 for the last byte.
      if pressed = 0 then
        ASSERT (decide (r.len ≥ 1))
          (.ok { r with
            scan_code :=
              store r.scan_code (r.len - 1).toNat (r.scan_code (r.len - 1).toNat ||| 0x80) })
      else .ok r
    else if code_set = SCANCODE_SET_2 then
      -- move back the last byte and insert a 0xf0 byte before that.
      if pressed = 0 then
        ASSERT (decide (r.len ≥ 1))
          (.ok { r with
            scan_code :=
              store (store r.scan_code r.len.toNat (r.scan_code (r.len - 1).toNat))
                (r.len - 1).toNat 0xF0
            len := r.len + 1 })
      else .ok r
    else .ok r

/-- The function `matrix_callback`. `row`, `col`, `pressed` are `int8_t`; `code_set` is the
enum value; `scan_code` and `len` are the contents of the caller's buffer and of `*len` on
entry (`ASSERT(scan_code)` and `ASSERT(len)` hold: the only caller passes the addresses of
its locals). -/
def matrix_callback (row col pressed : Int) (code_set : Nat) (scan_code : Nat → Nat)
    (len : Int) : Except Fault Encoded :=
  if row > CROS_ROW_NUM ∨ col > CROS_COL_NUM then
    .ok ⟨.EC_ERROR_INVAL, scan_code, len⟩
  else if code_set = SCANCODE_SET_1 then
    (table_read scancode_set1 row col).bind (matrix_callback_output pressed code_set scan_code)
  else if code_set = SCANCODE_SET_2 then
    (table_read scancode_set2 row col).bind (matrix_callback_output pressed code_set scan_code)
  else
    .ok ⟨.EC_ERROR_UNIMPLEMENTED, scan_code, 0⟩

/-- The table that `matrix_callback` consults for a supported scancode set. -/
def table_of (code_set : Nat) : List (List Nat) :=
  if code_set = SCANCODE_SET_1 then scancode_set1 else scancode_set2

/-- The break transform of Set 1 in the words of the specification: the last byte of the
press encoding is OR-ed with 0x80, the other bytes are kept. -/
def set1_break : List Nat → List Nat
  | [] => []
  | [b] => [b ||| 0x80]
  | b :: bs => b :: set1_break bs

/-- The break transform of Set 2 in the words of the specification: the byte 0xF0 is
inserted immediately before the final byte of the press encoding. -/
def set2_break : List Nat → List Nat
  | [] => []
  | [b] => [0xF0, b]
  | b :: bs => b :: set2_break bs

/-! ## The 8042 protocol: constants -/

/-- Modelled from the spec: `I8042_RET_ACK` of the missing `i8042.h` (ACK = 0xFA). -/
def I8042_RET_ACK : Nat := 0xfa

/-- Modelled from the spec: `I8042_RET_NAK` of the missing `i8042.h` (NAK = 0xFE). -/
def I8042_RET_NAK : Nat := 0xfe

/-- Modelled from the spec: `I8042_RET_BAT` of the missing `i8042.h`, the "self-test passed"
byte 0xAA. -/
def I8042_RET_BAT : Nat := 0xaa

/-- Modelled from the spec: `I8042_CMD_GSCANSET` (also `I8042_CMD_SSCANSET`) of the missing
`i8042.h`, the "select scancode set" code 0xF0. -/
def I8042_CMD_GSCANSET : Nat := 0xf0

/-- Modelled from the spec: `I8042_CMD_SETLEDS` of the missing `i8042.h`, the LED-set code
0xED. -/
def I8042_CMD_SETLEDS : Nat := 0xed

/-- Modelled from the spec: `I8042_CMD_EX_SETLEDS` of the missing `i8042.h`, the LED-set
variant 0xEB. -/
def I8042_CMD_EX_SETLEDS : Nat := 0xeb

/-- Modelled from the spec: `I8042_CMD_GETID` of the missing `i8042.h`, the identify code
0xF2. -/
def I8042_CMD_GETID : Nat := 0xf2

/-- Modelled from the spec: `I8042_CMD_OK_GETID` of the missing `i8042.h`, the alternate
identify code 0xE8. -/
def I8042_CMD_OK_GETID : Nat := 0xe8

/-- Modelled from the spec: `I8042_CMD_SETREP` of the missing `i8042.h`, "set typematic
rate/delay", 0xF3. -/
def I8042_CMD_SETREP : Nat := 0xf3

/-- Modelled from the spec: `I8042_CMD_ENABLE` of the missing `i8042.h`, "enable", 0xF4. -/
def I8042_CMD_ENABLE : Nat := 0xf4

/-- Modelled from the spec: `I8042_CMD_RESET_DIS` of the missing `i8042.h`, "disable", 0xF5. -/
def I8042_CMD_RESET_DIS : Nat := 0xf5

/-- Modelled from the spec: `I8042_CMD_RESET_DEF` of the missing `i8042.h`, "reset to
defaults", 0xF6. -/
def I8042_CMD_RESET_DEF : Nat := 0xf6

/-- Modelled from the spec: `I8042_CMD_RESET_BAT` of the missing `i8042.h`, "reset, run
self-test", 0xFF. -/
def I8042_CMD_RESET_BAT : Nat := 0xff

/-- Modelled from the spec: `I8042_CMD_RESEND` of the missing `i8042.h`, "resend", 0xFE. -/
def I8042_CMD_RESEND : Nat := 0xfe

/-- Modelled from the spec: `I8042_READ_CMD_BYTE` of the missing `i8042.h`, "read config
byte", the first code 0x20 of the read window 0x20..0x3F. -/
def I8042_READ_CMD_BYTE : Nat := 0x20

/-- Modelled from the spec: `I8042_READ_CTL_RAM` of the missing `i8042.h`: the indexed reads
are the rest 0x21..0x3F of the read window. -/
def I8042_READ_CTL_RAM : Nat := 0x21

/-- Modelled from the spec: `I8042_READ_CTL_RAM_END` of the missing `i8042.h`, the last code
0x3F of the read window. -/
def I8042_READ_CTL_RAM_END : Nat := 0x3f

/-- Modelled from the spec: `I8042_WRITE_CMD_BYTE` of the missing `i8042.h`, "write config
byte" (latched address 0), the first code 0x60 of the write window 0x60..0x7F. -/
def I8042_WRITE_CMD_BYTE : Nat := 0x60

/-- Modelled from the spec: `I8042_WRITE_CTL_RAM` of the missing `i8042.h`: the indexed writes
are the rest 0x61..0x7F of the write window. -/
def I8042_WRITE_CTL_RAM : Nat := 0x61

/-- Modelled from the spec: `I8042_WRITE_CTL_RAM_END` of the missing `i8042.h`, the last code
0x7F of the write window. -/
def I8042_WRITE_CTL_RAM_END : Nat := 0x7f

/-- The macros of the missing `i8042.h` for which neither the sources nor the specification
give a number; they are parameters of the embedding. The three labels
`I8042_CMD_SETALL_MB`, `I8042_CMD_SETALL_MBR` and `I8042_CMD_EX_ENABLE` of
`handle_keyboard_data` need no value: they share the body of `default`. -/
structure I8042Header where
  I8042_DIS_KB : Nat
  I8042_ENA_KB : Nat
  I8042_DIS_MOUSE : Nat
  I8042_ENA_MOUSE : Nat
  I8042_ECHO_MOUSE : Nat
  I8042_SEND_TO_MOUSE : Nat
  /-- The bit "auxiliary device disabled" of the command byte. -/
  I8042_AUX_DIS : Nat

/-- The numbers of the legacy 8042 interface for the macros of `I8042Header`; used where a
concrete header is needed to run the code. -/
def legacy8042 : I8042Header where
  I8042_DIS_KB := 0xad
  I8042_ENA_KB := 0xae
  I8042_DIS_MOUSE := 0xa7
  I8042_ENA_MOUSE := 0xa8
  I8042_ECHO_MOUSE := 0xd3
  I8042_SEND_TO_MOUSE := 0xd4
  I8042_AUX_DIS := 1 <<< 5

/-- The C operator `a || b` on integers. -/
def logical_or (a b : Nat) : Nat :=
  if a ≠ 0 ∨ b ≠ 0 then 1 else 0

/-- The macro `DEFAULT_TYPEMATIC_VALUE`, `((1 << 5) || (1 << 3) || (3 << 0))`. -/
def DEFAULT_TYPEMATIC_VALUE : Nat :=
  logical_or (logical_or (1 <<< 5) (1 <<< 3)) (3 <<< 0)

/-- The macro `DEFAULT_FIRST_DELAY`. -/
def DEFAULT_FIRST_DELAY : Int := 500

/-- The macro `DEFAULT_INTER_DELAY`. -/
def DEFAULT_INTER_DELAY : Int := 91

/-! ## The 8042 protocol: state -/

/-- The anonymous enum of `data_port_state`. -/
inductive DataPortState
  | STATE_NORMAL
  | STATE_SCANCODE
  | STATE_SETLEDS
  | STATE_WRITE_CMD_BYTE
  | STATE_ECHO_MOUSE
  | STATE_SEND_TO_MOUSE
  deriving DecidableEq, Repr

/-- The file-scope variables of `keyboard.c`. -/
structure KeyboardState where
  i8042_enabled : Int
  /-- An array `uint8_t [MAX_SCAN_CODE_LEN]`. -/
  resend_command : Nat → Nat
  resend_command_len : Nat
  controller_ram_address : Nat
  /-- An array `uint8_t [0x20]`. -/
  controller_ram : Nat → Nat
  scancode_set : Nat
  typematic_value_from_host : Nat
  refill_first_delay : Int
  counter_first_delay : Int
  refill_inter_delay : Int
  counter_inter_delay : Int
  data_port_state : DataPortState

/-- The initial values of the file-scope variables (statics without an initialiser are
zero). -/
def initial_state (k : I8042Header) : KeyboardState where
  i8042_enabled := 0
  resend_command := fun _ => 0
  resend_command_len := 0
  controller_ram_address := 0
  controller_ram := fun i => if i = 0 then k.I8042_AUX_DIS % 256 else 0
  scancode_set := SCANCODE_SET_2
  typematic_value_from_host := DEFAULT_TYPEMATIC_VALUE
  refill_first_delay := DEFAULT_FIRST_DELAY
  counter_first_delay := 0
  refill_inter_delay := DEFAULT_INTER_DELAY
  counter_inter_delay := 0
  data_port_state := .STATE_NORMAL

/-- The byte sequence held by the resend buffer: the first `resend_command_len` bytes of
`resend_command`. -/
def resend_buffer (s : KeyboardState) : List Nat :=
  (List.range s.resend_command_len).map s.resend_command

/-- The function `reset_rate_and_delay`. -/
def reset_rate_and_delay (s : KeyboardState) : KeyboardState :=
  { s with
    typematic_value_from_host := DEFAULT_TYPEMATIC_VALUE
    refill_first_delay := DEFAULT_FIRST_DELAY
    refill_inter_delay := DEFAULT_INTER_DELAY }

/-- The function `clean_underlying_buffer`: it calls `i8042_init()` of the host transport,
which touches none of the variables of this file. -/
def clean_underlying_buffer (s : KeyboardState) : KeyboardState := s

/-! ## `handle_keyboard_data` -/

/-- The locals of `handle_keyboard_data` after its outer `switch`, with the file-scope
variables. -/
structure DataSwitch where
  state : KeyboardState
  output : List Nat
  save_for_resend : Bool

/-- The inner `switch (data)` of `handle_keyboard_data`, taken in `STATE_NORMAL`. -/
def normal_switch (s : KeyboardState) (data : Nat) : Except Fault DataSwitch :=
  if data = I8042_CMD_GSCANSET then
    .ok ⟨{ s with data_port_state := .STATE_SCANCODE }, [I8042_RET_ACK], true⟩
  else if data = I8042_CMD_SETLEDS ∨ data = I8042_CMD_EX_SETLEDS then
    .ok ⟨{ s with data_port_state := .STATE_SETLEDS }, [I8042_RET_ACK], true⟩
  else if data = I8042_CMD_GETID ∨ data = I8042_CMD_OK_GETID then
    .ok ⟨s, [I8042_RET_ACK, 0xab, 0x83], true⟩
  else if data = I8042_CMD_SETREP then
    let s1 := { s with typematic_value_from_host := data }
    let s2 := { s1 with refill_first_delay := s1.counter_first_delay + s1.counter_inter_delay }
    let s3 := { s2 with
      refill_first_delay := (((s2.typematic_value_from_host &&& 0x60) >>> 5) * 250 : Nat) }
    let s4 := { s3 with
      refill_inter_delay :=
        (1000 * (1 <<< ((s3.typematic_value_from_host &&& 0x18) >>> 3)) *
          ((s3.typematic_value_from_host &&& 0x7) + 8) / 240 : Nat) }
    .ok ⟨s4, [I8042_RET_ACK], true⟩
  else if data = I8042_CMD_ENABLE then
    .ok ⟨clean_underlying_buffer { s with i8042_enabled := 1 }, [I8042_RET_ACK], true⟩
  else if data = I8042_CMD_RESET_DIS then
    .ok ⟨clean_underlying_buffer (reset_rate_and_delay { s with i8042_enabled := 0 }),
      [I8042_RET_ACK], true⟩
  else if data = I8042_CMD_RESET_DEF then
    .ok ⟨clean_underlying_buffer (reset_rate_and_delay s), [I8042_RET_ACK], true⟩
  else if data = I8042_CMD_RESET_BAT then
    .ok ⟨{ s with i8042_enabled := 0 }, [I8042_RET_ACK, I8042_RET_BAT, I8042_RET_BAT], true⟩
  else if data = I8042_CMD_RESEND then
    -- the loop reads resend_command[0 .. resend_command_len - 1]
    if s.resend_command_len ≤ MAX_SCAN_CODE_LEN then
      .ok ⟨s, [I8042_RET_ACK] ++ (List.range s.resend_command_len).map s.resend_command, false⟩
    else
      .error .out_of_bounds
  else if data = 0x60 ∨ data = 0x45 then
    -- just ignore, don't reply anything.
    .ok ⟨s, [], true⟩
  else
    .ok ⟨clean_underlying_buffer (reset_rate_and_delay { s with i8042_enabled := 0 }),
      [I8042_RET_NAK], true⟩

/-- The outer `switch (data_port_state)` of `handle_keyboard_data`. -/
def data_switch (s : KeyboardState) (data : Nat) : Except Fault DataSwitch :=
  match s.data_port_state with
  | .STATE_SCANCODE =>
    if data = SCANCODE_GET_SET then
      .ok ⟨{ s with data_port_state := .STATE_NORMAL },
        [I8042_RET_ACK, s.scancode_set % 256], true⟩
    else
      .ok ⟨{ s with scancode_set := data, data_port_state := .STATE_NORMAL },
        [I8042_RET_ACK], true⟩
  | .STATE_SETLEDS =>
    .ok ⟨{ s with data_port_state := .STATE_NORMAL }, [I8042_RET_ACK], true⟩
  | .STATE_WRITE_CMD_BYTE =>
    if s.controller_ram_address < 0x20 then
      .ok ⟨{ s with
          controller_ram := store s.controller_ram s.controller_ram_address data
          data_port_state := .STATE_NORMAL },
        [I8042_RET_ACK], true⟩
    else
      .error .out_of_bounds
  | .STATE_ECHO_MOUSE =>
    .ok ⟨{ s with data_port_state := .STATE_NORMAL }, [data], true⟩
  | .STATE_SEND_TO_MOUSE =>
    .ok ⟨{ s with data_port_state := .STATE_NORMAL }, [], true⟩
  | .STATE_NORMAL => normal_switch s data

/-- The loop `for (i = 0; i < out_len; ++i) resend_command[i] = output[i];`. -/
def save_output (resend_command : Nat → Nat) (output : List Nat) : Nat → Nat :=
  (List.range output.length).foldl (fun a i => store a i (output.getD i 0)) resend_command

/-- The function `handle_keyboard_data`: the new values of the file-scope variables and the
`out_len` bytes written to `output`. `data` is a `uint8_t`. -/
def handle_keyboard_data (s : KeyboardState) (data : Nat) :
    Except Fault (KeyboardState × List Nat) :=
  (data_switch s data).bind fun d =>
    -- For resend, keep output before leaving.
    if d.output.length ≠ 0 ∧ d.save_for_resend = true then
      ASSERT (decide (d.output.length ≤ MAX_SCAN_CODE_LEN))
        (ASSERT (decide (d.output.length ≤ MAX_SCAN_CODE_LEN))
          (.ok ({ d.state with
              resend_command := save_output d.state.resend_command d.output
              resend_command_len := d.output.length },
            d.output)))
    else
      ASSERT (decide (d.output.length ≤ MAX_SCAN_CODE_LEN)) (.ok (d.state, d.output))

/-- A state in `STATE_NORMAL` whose resend buffer is full: it holds the four bytes
1, 2, 3, 4. -/
def full_resend_state : KeyboardState :=
  { initial_state legacy8042 with
    resend_command := fun i => i + 1
    resend_command_len := 4 }

/-- The state after the host has sent the command byte 0xAE and then the data byte 0xF2 to
the initial state: the keyboard is enabled and the resend buffer holds the identify
response. -/
def identified_state : KeyboardState :=
  { initial_state legacy8042 with
    i8042_enabled := 1
    resend_command := save_output (initial_state legacy8042).resend_command [0xFA, 0xAB, 0x83]
    resend_command_len := 3 }

/-! ## `handle_keyboard_command` -/

/-- The function `handle_keyboard_command`: the new values of the file-scope variables and
the `out_len` bytes written to `output`. `command` is a `uint8_t`; `~I8042_AUX_DIS` is the
complement of a 32-bit `int`. -/
def handle_keyboard_command (k : I8042Header) (s : KeyboardState) (command : Nat) :
    KeyboardState × List Nat :=
  if command = I8042_READ_CMD_BYTE then
    (s, [s.controller_ram 0])
  else if command = I8042_WRITE_CMD_BYTE then
    ({ s with
        data_port_state := .STATE_WRITE_CMD_BYTE
        controller_ram_address := command - 0x60 }, [])
  else if command = k.I8042_DIS_KB then
    ({ s with i8042_enabled := 0 }, [])
  else if command = k.I8042_ENA_KB then
    ({ s with i8042_enabled := 1 }, [])
  else if command = k.I8042_DIS_MOUSE then
    ({ s with
        controller_ram :=
          store s.controller_ram 0 ((s.controller_ram 0 ||| k.I8042_AUX_DIS) % 256) }, [])
  else if command = k.I8042_ENA_MOUSE then
    ({ s with
        controller_ram :=
          store s.controller_ram 0
            ((s.controller_ram 0 &&& (0xFFFFFFFF ^^^ k.I8042_AUX_DIS)) % 256) }, [])
  else if command = k.I8042_ECHO_MOUSE then
    ({ s with data_port_state := .STATE_ECHO_MOUSE }, [])
  else if command = k.I8042_SEND_TO_MOUSE then
    ({ s with data_port_state := .STATE_SEND_TO_MOUSE }, [])
  else if command ≥ I8042_READ_CTL_RAM ∧ command ≤ I8042_READ_CTL_RAM_END then
    (s, [s.controller_ram (command - 0x20)])
  else if command ≥ I8042_WRITE_CTL_RAM ∧ command ≤ I8042_WRITE_CTL_RAM_END then
    ({ s with
        data_port_state := .STATE_WRITE_CMD_BYTE
        controller_ram_address := command - 0x60 }, [])
  else
    (clean_underlying_buffer (reset_rate_and_delay { s with i8042_enabled := 0 }),
      [I8042_RET_NAK])

/-! ## Typematic timing -/

/-- Line 308 of `handle_keyboard_data`: the value assigned to `refill_first_delay`, as a
function of `typematic_value_from_host`. -/
def first_delay_of_rate (typematic_value_from_host : Nat) : Int :=
  (((typematic_value_from_host &&& 0x60) >>> 5) * 250 : Nat)

/-- Lines 309-312 of `handle_keyboard_data`: the value assigned to `refill_inter_delay`, as a
function of `typematic_value_from_host`. -/
def inter_delay_of_rate (typematic_value_from_host : Nat) : Int :=
  (1000 * (1 <<< ((typematic_value_from_host &&& 0x18) >>> 3)) *
    ((typematic_value_from_host &&& 0x7) + 8) / 240 : Nat)

/-- The first-repeat delay in the words of the specification: bits 5-6 of the rate byte
select the multiplier, 0, 1, 2, 3 giving 250, 500, 750, 1000 ms. -/
def spec_first_delay (v : Nat) : Int :=
  (250 * (((v >>> 5) &&& 3) + 1) : Nat)

/-- The inter-repeat delay in the words of the specification: with `B` the bits 3-4 and `D`
the bits 0-2 of the rate byte, `1000 * 2^B * (D + 8) / 240` truncated to an integer. -/
def spec_inter_delay (v : Nat) : Int :=
  (1000 * 2 ^ ((v >>> 3) &&& 3) * ((v &&& 7) + 8) / 240 : Nat)

/-! ## Well-formedness of the parametrised header -/

/-- The eight `case` labels of the `switch` of `handle_keyboard_command` are pairwise
distinct, as the labels of a C `switch` must be. -/
def I8042Header.labels_distinct (k : I8042Header) : Prop :=
  [I8042_READ_CMD_BYTE, I8042_WRITE_CMD_BYTE, k.I8042_DIS_KB, k.I8042_ENA_KB,
    k.I8042_DIS_MOUSE, k.I8042_ENA_MOUSE, k.I8042_ECHO_MOUSE, k.I8042_SEND_TO_MOUSE].Nodup

/-- None of the six parametrised command codes lies inside the read window 0x20..0x3F or the
write window 0x60..0x7F of the controller RAM. -/
def I8042Header.outside_windows (k : I8042Header) : Prop :=
  ∀ c ∈ [k.I8042_DIS_KB, k.I8042_ENA_KB, k.I8042_DIS_MOUSE, k.I8042_ENA_MOUSE,
    k.I8042_ECHO_MOUSE, k.I8042_SEND_TO_MOUSE],
    ¬ (0x20 ≤ c ∧ c ≤ 0x3F) ∧ ¬ (0x60 ≤ c ∧ c ≤ 0x7F)

instance (k : I8042Header) : Decidable k.labels_distinct := by
  unfold I8042Header.labels_distinct
  infer_instance

instance (k : I8042Header) : Decidable k.outside_windows := by
  unfold I8042Header.outside_windows
  infer_instance

/-- Two states agree on the scancode set, the controller RAM, the typematic variables and
the enabled flag. -/
def same_settings (s t : KeyboardState) : Prop :=
  t.scancode_set = s.scancode_set ∧ t.controller_ram = s.controller_ram ∧
    t.typematic_value_from_host = s.typematic_value_from_host ∧
    t.refill_first_delay = s.refill_first_delay ∧
    t.counter_first_delay = s.counter_first_delay ∧
    t.refill_inter_delay = s.refill_inter_delay ∧
    t.counter_inter_delay = s.counter_inter_delay ∧
    t.i8042_enabled = s.i8042_enabled

/-! ## `keyboard_state_changed` -/

/-- The conversion of an `int` argument to the `int8_t` parameter of `matrix_callback`
(wrapping modulo 256 into -128..127). -/
def to_int8 (x : Int) : Int :=
  (x + 128) % 256 - 128

/-- The function `keyboard_state_changed`: the bytes handed to `i8042_send_to_host`. It
reads `scancode_set` and writes none of the file-scope variables; `scan_code` and `len` are
the contents of its uninitialised locals. Both branches end in an `ASSERT`. -/
def keyboard_state_changed (s : KeyboardState) (row col is_pressed : Int)
    (scan_code : Nat → Nat) (len : Int) : Except Fault (List Nat) :=
  (matrix_callback (to_int8 row) (to_int8 col) (to_int8 is_pressed) s.scancode_set
      scan_code len).bind fun r =>
    if r.ret = .EC_SUCCESS then
      ASSERT (decide (r.len > 0)) (.ok r.bytes)
    else
      -- FIXME: long-term solution is to ignore this key. However, keep
      --        assertion in the debug stage.
      ASSERT (decide (r.ret = .EC_SUCCESS)) (.ok [])

/-- What `matrix_callback` returns for the release of (row 0, column 1) in Set 2 when the
caller's buffer is zeroed: the three bytes 0xE0, 0xF0, 0x1F. -/
def release_row0_col1_set2 : Encoded :=
  ⟨.EC_SUCCESS, store (store (store (store (fun _ => 0) 0 0xe0) 1 0x1f) 2 0x1f) 1 0xF0, 3⟩

/-! ## Runs of host bytes -/

/-- A byte from the host: on the data port or on the command port. -/
inductive HostByte
  | data (byte : Nat)
  | command (byte : Nat)
  deriving DecidableEq, Repr

/-- The file-scope variables after one host byte has been handled. -/
def step (k : I8042Header) (s : KeyboardState) : HostByte → Except Fault KeyboardState
  | .data byte => (handle_keyboard_data s byte).map Prod.fst
  | .command byte => .ok (handle_keyboard_command k s byte).1

/-- The file-scope variables after a sequence of host bytes, handled in order. -/
def run (k : I8042Header) (s : KeyboardState) : List HostByte → Except Fault KeyboardState
  | [] => .ok s
  | x :: xs => (step k s x).bind fun s1 => run k s1 xs

/-- The ten matrix positions of the function keys F1..F10 (F1 (0,2), F2 (3,2), F3 (2,2),
F4 (1,2), F5 (3,4), F6 (2,4), F7 (1,4), F8 (2,9), F9 (1,9), F10 (0,4)). -/
def function_key_positions : List (Nat × Nat) :=
  [(0, 2), (3, 2), (2, 2), (1, 2), (3, 4), (2, 4), (1, 4), (2, 9), (1, 9), (0, 4)]

/-- The two pairs of matrix positions that carry the same make-code as each other in both
tables, in either order. -/
def shared_key_pairs : List ((Nat × Nat) × (Nat × Nat)) :=
  [((0, 5), (2, 10)), ((2, 10), (0, 5)), ((3, 11), (4, 10)), ((4, 10), (3, 11))]

/-- The positions of the `CROS_ROW_NUM` x `CROS_COL_NUM` matrix. -/
def table_positions : List (Nat × Nat) :=
  (List.range CROS_ROW_NUM).flatMap fun r => (List.range CROS_COL_NUM).map fun c => (r, c)

/-- The ordered pairs of distinct positions of a table that hold the same non-zero
make-code. -/
def collisions (table : List (List Nat)) : List ((Nat × Nat) × (Nat × Nat)) :=
  (table_positions.product table_positions).filter fun pq =>
    decide (pq.1 ≠ pq.2 ∧ entry table pq.1.1 pq.1.2 ≠ 0 ∧
      entry table pq.1.1 pq.1.2 = entry table pq.2.1 pq.2.2)

/-- A collision is one of the two shared pairs or involves a function-key position. -/
def explained (pq : (Nat × Nat) × (Nat × Nat)) : Bool :=
  decide (pq.1 ∈ function_key_positions ∨ pq.2 ∈ function_key_positions ∨
    pq ∈ shared_key_pairs)

/-- A state with the enabled flag blanked out. -/
def without_enabled (s : KeyboardState) : KeyboardState :=
  { s with i8042_enabled := 0 }

/-- The result of the outer `switch` of `handle_keyboard_data` with the enabled flag blanked
out. -/
def erase_enabled (r : DataSwitch) : DataSwitch :=
  ⟨without_enabled r.state, r.output, r.save_for_resend⟩

/-- Two states differ at most in the enabled flag. -/
def agree_up_to_enabled (s t : KeyboardState) : Prop :=
  without_enabled s = without_enabled t

/-! ## Theorems: the scan-code encoder -/

theorem table_read_inside (table : List (List Nat)) (row col : Int)
    (hr0 : 0 ≤ row) (hr : row ≤ 7) (hc0 : 0 ≤ col) (hc : col ≤ 12) :
    table_read table row col = .ok (entry table row.toNat col.toNat) := by
  have h : 0 ≤ row ∧ row < (CROS_ROW_NUM : Int) ∧ 0 ≤ col ∧ col < (CROS_COL_NUM : Int) := by
    simp only [CROS_ROW_NUM, CROS_COL_NUM]
    omega
  simp only [table_read, if_pos h]

theorem matrix_callback_inside (row col pressed : Int) (code_set : Nat)
    (scan_code : Nat → Nat) (len : Int)
    (hr0 : 0 ≤ row) (hr : row ≤ 7) (hc0 : 0 ≤ col) (hc : col ≤ 12)
    (hset : code_set = SCANCODE_SET_1 ∨ code_set = SCANCODE_SET_2) :
    matrix_callback row col pressed code_set scan_code len =
      matrix_callback_output pressed code_set scan_code
        (entry (table_of code_set) row.toNat col.toNat) := by
  have h : ¬ (row > (CROS_ROW_NUM : Int) ∨ col > (CROS_COL_NUM : Int)) := by
    simp only [CROS_ROW_NUM, CROS_COL_NUM]
    omega
  rcases hset with h1 | h2
  · subst h1
    simp only [matrix_callback, if_neg h, table_read_inside _ row col hr0 hr hc0 hc, table_of,
      if_true]
    rfl
  · subst h2
    have h21 : ¬ (SCANCODE_SET_2 = SCANCODE_SET_1) := by decide
    simp only [matrix_callback, if_neg h, table_read_inside _ row col hr0 hr hc0 hc, table_of,
      if_neg h21, if_true]
    rfl

/-- C1: for a position inside the 8 x 13 table, a supported set and a non-zero table entry
`m`, a press is encoded successfully as `[m >> 8, m & 0xFF]` when `m >= 0x0100` and as
`[m & 0xFF]` otherwise, with no further transform. -/
theorem press_emits_make_code (row col pressed : Int) (code_set : Nat)
    (scan_code : Nat → Nat) (len : Int) (m : Nat)
    (hr0 : 0 ≤ row) (hr : row ≤ 7) (hc0 : 0 ≤ col) (hc : col ≤ 12)
    (hset : code_set = SCANCODE_SET_1 ∨ code_set = SCANCODE_SET_2)
    (hpressed : pressed ≠ 0)
    (hm : entry (table_of code_set) row.toNat col.toNat = m) (hm0 : m ≠ 0) :
    ∃ r, matrix_callback row col pressed code_set scan_code len = .ok r ∧
      r.ret = .EC_SUCCESS ∧
      r.bytes = if m ≥ 0x0100 then [m >>> 8, m &&& 0xff] else [m &&& 0xff] := by
  rw [matrix_callback_inside row col pressed code_set scan_code len hr0 hr hc0 hc hset, hm]
  by_cases hbig : m ≥ 0x0100
  · rcases hset with h | h <;> subst h <;>
      simp [matrix_callback_output, hm0, hbig, hpressed, SCANCODE_SET_1, SCANCODE_SET_2] <;> rfl
  · rcases hset with h | h <;> subst h <;>
      simp [matrix_callback_output, hm0, hbig, hpressed, SCANCODE_SET_1, SCANCODE_SET_2] <;> rfl

theorem press_emits_make_code_witness :
    ∃ r, matrix_callback 0 10 1 SCANCODE_SET_1 (fun _ => 0) 0 = .ok r ∧
      r.ret = .EC_SUCCESS ∧
      r.bytes = if 0xe038 ≥ 0x0100 then [0xe038 >>> 8, 0xe038 &&& 0xff] else [0xe038 &&& 0xff] :=
  press_emits_make_code 0 10 1 SCANCODE_SET_1 (fun _ => 0) 0 0xe038 (by decide) (by decide)
    (by decide) (by decide) (Or.inl rfl) (by decide) (by decide) (by decide)

/-- C2: for a mapped key the release encoding is the break transform of the press encoding
of the same (row, column, set): in Set 1 the last byte OR 0x80 (same length), in Set 2 the
byte 0xF0 inserted before the final byte (length + 1). -/
theorem release_is_break_of_press (row col pressed : Int) (code_set : Nat)
    (scan_code : Nat → Nat) (len : Int)
    (hr0 : 0 ≤ row) (hr : row ≤ 7) (hc0 : 0 ≤ col) (hc : col ≤ 12)
    (hset : code_set = SCANCODE_SET_1 ∨ code_set = SCANCODE_SET_2)
    (hpressed : pressed ≠ 0)
    (hm0 : entry (table_of code_set) row.toNat col.toNat ≠ 0) :
    ∃ p r, matrix_callback row col pressed code_set scan_code len = .ok p ∧
      matrix_callback row col 0 code_set scan_code len = .ok r ∧
      p.ret = .EC_SUCCESS ∧ r.ret = .EC_SUCCESS ∧
      (code_set = SCANCODE_SET_1 →
        r.bytes = set1_break p.bytes ∧ r.bytes.length = p.bytes.length) ∧
      (code_set = SCANCODE_SET_2 →
        r.bytes = set2_break p.bytes ∧ r.bytes.length = p.bytes.length + 1) := by
  rw [matrix_callback_inside row col pressed code_set scan_code len hr0 hr hc0 hc hset,
    matrix_callback_inside row col 0 code_set scan_code len hr0 hr hc0 hc hset]
  generalize entry (table_of code_set) row.toNat col.toNat = m at hm0
  by_cases hbig : m ≥ 0x0100
  · rcases hset with h | h <;> subst h <;>
      simp [matrix_callback_output, hm0, hbig, hpressed, SCANCODE_SET_1, SCANCODE_SET_2,
        ASSERT] <;> refine ⟨rfl, rfl⟩
  · rcases hset with h | h <;> subst h <;>
      simp [matrix_callback_output, hm0, hbig, hpressed, SCANCODE_SET_1, SCANCODE_SET_2,
        ASSERT] <;> refine ⟨rfl, rfl⟩

theorem release_is_break_of_press_witness :
    ∃ p r, matrix_callback 4 0 1 SCANCODE_SET_2 (fun _ => 0) 0 = .ok p ∧
      matrix_callback 4 0 0 SCANCODE_SET_2 (fun _ => 0) 0 = .ok r ∧
      p.ret = .EC_SUCCESS ∧ r.ret = .EC_SUCCESS ∧
      (SCANCODE_SET_2 = SCANCODE_SET_1 →
        r.bytes = set1_break p.bytes ∧ r.bytes.length = p.bytes.length) ∧
      (SCANCODE_SET_2 = SCANCODE_SET_2 →
        r.bytes = set2_break p.bytes ∧ r.bytes.length = p.bytes.length + 1) :=
  release_is_break_of_press 4 0 1 SCANCODE_SET_2 (fun _ => 0) 0 (by decide) (by decide)
    (by decide) (by decide) (Or.inr rfl) (by decide) (by decide)

/-- Every row above 8 and every column above 13 is rejected with `EC_ERROR_INVAL` and
nothing is written. -/
theorem above_bound_is_rejected (row col pressed : Int) (code_set : Nat)
    (scan_code : Nat → Nat) (len : Int) (h : row > 8 ∨ col > 13) :
    matrix_callback row col pressed code_set scan_code len =
      .ok ⟨.EC_ERROR_INVAL, scan_code, len⟩ := by
  have h2 : row > (CROS_ROW_NUM : Int) ∨ col > (CROS_COL_NUM : Int) := by
    simp only [CROS_ROW_NUM, CROS_COL_NUM]
    exact h
  simp only [matrix_callback, if_pos h2]

/-- C3: at row = 8 (one past the last row of the table) the range check `row > CROS_ROW_NUM`
of `matrix_callback` does not fire: instead of returning `EC_ERROR_INVAL` the function
indexes the table outside its declared bounds. The same happens at column = 13 and at a
negative row or column. -/
theorem row_eight_reads_outside_table (scan_code : Nat → Nat) (len : Int) :
    matrix_callback 8 0 1 SCANCODE_SET_2 scan_code len = .error .out_of_bounds ∧
      matrix_callback 0 13 1 SCANCODE_SET_2 scan_code len = .error .out_of_bounds ∧
      matrix_callback (-1) 0 1 SCANCODE_SET_1 scan_code len = .error .out_of_bounds ∧
      matrix_callback 0 (-128) 0 SCANCODE_SET_1 scan_code len = .error .out_of_bounds :=
  ⟨rfl, rfl, rfl, rfl⟩

/-- C4: at a position inside the table whose entry in the given set is 0, the encoder
returns the no-mapping failure `EC_ERROR_UNIMPLEMENTED` for a press and for a release, in
Set 1 and in Set 2, reports length 0 and leaves the buffer untouched. -/
theorem unmapped_position_fails (row col pressed : Int) (code_set : Nat)
    (scan_code : Nat → Nat) (len : Int)
    (hr0 : 0 ≤ row) (hr : row ≤ 7) (hc0 : 0 ≤ col) (hc : col ≤ 12)
    (hset : code_set = SCANCODE_SET_1 ∨ code_set = SCANCODE_SET_2)
    (hm0 : entry (table_of code_set) row.toNat col.toNat = 0) :
    matrix_callback row col pressed code_set scan_code len =
        .ok ⟨.EC_ERROR_UNIMPLEMENTED, scan_code, 0⟩ ∧
      (Encoded.mk .EC_ERROR_UNIMPLEMENTED scan_code 0).bytes = [] := by
  rw [matrix_callback_inside row col pressed code_set scan_code len hr0 hr hc0 hc hset, hm0]
  exact ⟨rfl, rfl⟩

theorem unmapped_position_fails_witness :
    matrix_callback 0 0 1 SCANCODE_SET_2 (fun _ => 0) 7 =
        .ok ⟨.EC_ERROR_UNIMPLEMENTED, fun _ => 0, 0⟩ ∧
      (Encoded.mk .EC_ERROR_UNIMPLEMENTED (fun _ => 0) 0).bytes = [] :=
  unmapped_position_fails 0 0 1 SCANCODE_SET_2 (fun _ => 0) 7 (by decide) (by decide)
    (by decide) (by decide) (Or.inr rfl) (by decide)

/-- C5 (as stated, refuted): the failure for the unsupported set 3 at the mapped position
(0, 1) is the very same return value, `EC_ERROR_UNIMPLEMENTED` with length 0, as the
no-mapping failure at the unmapped position (0, 0) of Set 2; the two are not
distinguishable. -/
theorem unsupported_set_not_distinguishable :
    ¬ ((matrix_callback 0 1 1 3 (fun _ => 0) 0).map (fun r => (r.ret, r.len)) ≠
        (matrix_callback 0 0 1 SCANCODE_SET_2 (fun _ => 0) 0).map (fun r => (r.ret, r.len))) := by
  intro h
  exact h rfl

/-- C5 (amended): for a position inside the table, any pressed value and any set value other
than Set 1 and Set 2, the encoder fails with `EC_ERROR_UNIMPLEMENTED`, reports length 0 and
leaves the buffer untouched; this is exactly what it returns for an unmapped position of a
supported set. -/
theorem unsupported_set_fails (row col pressed : Int) (code_set : Nat)
    (scan_code : Nat → Nat) (len : Int)
    (hr0 : 0 ≤ row) (hr : row ≤ 7) (hc0 : 0 ≤ col) (hc : col ≤ 12)
    (hset1 : code_set ≠ SCANCODE_SET_1) (hset2 : code_set ≠ SCANCODE_SET_2) :
    matrix_callback row col pressed code_set scan_code len =
        .ok ⟨.EC_ERROR_UNIMPLEMENTED, scan_code, 0⟩ ∧
      ∀ (row2 col2 pressed2 : Int) (set2 : Nat), 0 ≤ row2 → row2 ≤ 7 → 0 ≤ col2 → col2 ≤ 12 →
        (set2 = SCANCODE_SET_1 ∨ set2 = SCANCODE_SET_2) →
        entry (table_of set2) row2.toNat col2.toNat = 0 →
        matrix_callback row2 col2 pressed2 set2 scan_code len =
          matrix_callback row col pressed code_set scan_code len := by
  have h : ¬ (row > (CROS_ROW_NUM : Int) ∨ col > (CROS_COL_NUM : Int)) := by
    simp only [CROS_ROW_NUM, CROS_COL_NUM]
    omega
  have hmain : matrix_callback row col pressed code_set scan_code len =
      .ok ⟨.EC_ERROR_UNIMPLEMENTED, scan_code, 0⟩ := by
    simp only [matrix_callback, if_neg h, if_neg hset1, if_neg hset2]
  refine ⟨hmain, ?_⟩
  intro row2 col2 pressed2 set2 h1 h2 h3 h4 h5 h6
  rw [hmain, matrix_callback_inside row2 col2 pressed2 set2 scan_code len h1 h2 h3 h4 h5, h6]
  rfl

theorem unsupported_set_fails_witness :
    matrix_callback 0 1 0 0xFE (fun _ => 0) 5 =
        .ok ⟨.EC_ERROR_UNIMPLEMENTED, fun _ => 0, 0⟩ ∧
      ∀ (row2 col2 pressed2 : Int) (set2 : Nat), 0 ≤ row2 → row2 ≤ 7 → 0 ≤ col2 → col2 ≤ 12 →
        (set2 = SCANCODE_SET_1 ∨ set2 = SCANCODE_SET_2) →
        entry (table_of set2) row2.toNat col2.toNat = 0 →
        matrix_callback row2 col2 pressed2 set2 (fun _ => 0) 5 =
          matrix_callback 0 1 0 0xFE (fun _ => 0) 5 :=
  unsupported_set_fails 0 1 0 0xFE (fun _ => 0) 5 (by decide) (by decide) (by decide)
    (by decide) (by decide) (by decide)

/-- C6 (as stated, refuted): the press of (row 0, column 1) in Set 2 is not encoded as the
single byte 0x76. -/
theorem row0_col1_press_is_not_0x76 :
    ¬ ∃ r, matrix_callback 0 1 1 SCANCODE_SET_2 (fun _ => 0) 0 = .ok r ∧ r.bytes = [0x76] := by
  rintro ⟨r, hr, hb⟩
  have h : matrix_callback 0 1 1 SCANCODE_SET_2 (fun _ => 0) 0 =
      .ok ⟨.EC_SUCCESS, store (store (fun _ => 0) 0 0xe0) 1 0x1f, 2⟩ := rfl
  rw [h] at hr
  cases hr
  revert hb
  decide

/-- C6 (amended): the Set 2 entry of (row 0, column 1) is 0xE01F, so its press is encoded as
`[0xE0, 0x1F]` and its release as `[0xE0, 0xF0, 0x1F]`; the key encoded as `[0x76]` on press
and `[0xF0, 0x76]` on release is the one at (row 1, column 1). -/
theorem row0_col1_and_row1_col1_set2 (scan_code : Nat → Nat) (len : Int) :
    (matrix_callback 0 1 1 SCANCODE_SET_2 scan_code len).map Encoded.bytes = .ok [0xE0, 0x1F] ∧
      (matrix_callback 0 1 0 SCANCODE_SET_2 scan_code len).map Encoded.bytes =
        .ok [0xE0, 0xF0, 0x1F] ∧
      (matrix_callback 1 1 1 SCANCODE_SET_2 scan_code len).map Encoded.bytes = .ok [0x76] ∧
      (matrix_callback 1 1 0 SCANCODE_SET_2 scan_code len).map Encoded.bytes =
        .ok [0xF0, 0x76] :=
  ⟨rfl, rfl, rfl, rfl⟩

/-! ## Theorems: the protocol state machine -/

theorem fold_store_apply (output : List Nat) (n : Nat) (a : Nat → Nat) (i : Nat) :
    (List.range n).foldl (fun a i => store a i (output.getD i 0)) a i =
      if i < n then output.getD i 0 else a i := by
  induction n with
  | zero => simp
  | succ n ih =>
    rw [List.range_succ, List.foldl_append, List.foldl_cons, List.foldl_nil]
    by_cases h : i = n
    · subst h
      simp [store]
    · have h1 : (i < n + 1) = (i < n) := by
        apply propext
        omega
      simp only [store, if_neg h, ih, h1]

theorem save_output_apply (a : Nat → Nat) (output : List Nat) (i : Nat) :
    save_output a output i = if i < output.length then output.getD i 0 else a i :=
  fold_store_apply output output.length a i

theorem map_range_save_output (a : Nat → Nat) (output : List Nat) :
    (List.range output.length).map (save_output a output) = output := by
  apply List.ext_getElem
  · simp
  · intro i h1 h2
    simp only [List.getElem_map, List.getElem_range, save_output_apply, if_pos h2]
    simp [List.getD_eq_getElem?_getD, h2]

/-- The resend command in `STATE_NORMAL` with fewer than `MAX_SCAN_CODE_LEN` buffered bytes. -/
theorem resend_in_normal (s : KeyboardState) (hmode : s.data_port_state = .STATE_NORMAL)
    (hlen : s.resend_command_len < MAX_SCAN_CODE_LEN) :
    handle_keyboard_data s I8042_CMD_RESEND = .ok (s, I8042_RET_ACK :: resend_buffer s) := by
  have h1 : s.resend_command_len ≤ MAX_SCAN_CODE_LEN := Nat.le_of_lt hlen
  have h2 : s.resend_command_len + 1 ≤ MAX_SCAN_CODE_LEN := hlen
  simp [handle_keyboard_data, data_switch, hmode, normal_switch, I8042_CMD_RESEND,
    I8042_CMD_GSCANSET, I8042_CMD_SETLEDS, I8042_CMD_EX_SETLEDS, I8042_CMD_GETID,
    I8042_CMD_OK_GETID, I8042_CMD_SETREP, I8042_CMD_ENABLE, I8042_CMD_RESET_DIS,
    I8042_CMD_RESET_DEF, I8042_CMD_RESET_BAT, h1, Except.bind, ASSERT, h2, resend_buffer]

theorem data_switch_normal (s : KeyboardState) (data : Nat)
    (hmode : s.data_port_state = .STATE_NORMAL) :
    data_switch s data = normal_switch s data := by
  unfold data_switch
  rw [hmode]

theorem data_switch_saves (s : KeyboardState) (data : Nat) (d : DataSwitch)
    (hnr : ¬ (s.data_port_state = .STATE_NORMAL ∧ data = I8042_CMD_RESEND))
    (h : data_switch s data = .ok d) :
    d.save_for_resend = true ∧ d.output.length ≤ 3 ∧
      d.state.resend_command = s.resend_command ∧
      d.state.resend_command_len = s.resend_command_len := by
  unfold data_switch at h
  cases hm : s.data_port_state <;> simp only [hm] at h
  · have hd : data ≠ I8042_CMD_RESEND := fun hd => hnr ⟨hm, hd⟩
    unfold normal_switch at h
    simp only [if_neg hd] at h
    split_ifs at h <;> cases h <;>
      simp [clean_underlying_buffer, reset_rate_and_delay]
  · split_ifs at h <;> cases h <;> simp
  · cases h; simp
  · split_ifs at h
    cases h
    simp
  · cases h; simp
  · cases h; simp

theorem data_switch_returns (s : KeyboardState) (data : Nat)
    (hnr : ¬ (s.data_port_state = .STATE_NORMAL ∧ data = I8042_CMD_RESEND))
    (haddr : s.data_port_state = .STATE_WRITE_CMD_BYTE → s.controller_ram_address < 0x20) :
    ∃ d, data_switch s data = .ok d := by
  unfold data_switch
  cases hm : s.data_port_state <;> simp only
  · have hd : data ≠ I8042_CMD_RESEND := fun hd => hnr ⟨hm, hd⟩
    unfold normal_switch
    simp only [if_neg hd]
    split_ifs <;> exact ⟨_, rfl⟩
  · split_ifs <;> exact ⟨_, rfl⟩
  · exact ⟨_, rfl⟩
  · rw [if_pos (haddr hm)]
    exact ⟨_, rfl⟩
  · exact ⟨_, rfl⟩
  · exact ⟨_, rfl⟩

theorem handle_keyboard_data_of_switch (s : KeyboardState) (data : Nat) (d : DataSwitch)
    (h : data_switch s data = .ok d) (hs : d.save_for_resend = true)
    (hl : d.output.length ≤ MAX_SCAN_CODE_LEN) :
    handle_keyboard_data s data =
      .ok (if d.output.length ≠ 0 then
            { d.state with
              resend_command := save_output d.state.resend_command d.output
              resend_command_len := d.output.length }
          else d.state, d.output) := by
  unfold handle_keyboard_data
  rw [h]
  by_cases h0 : d.output.length ≠ 0
  · simp [Except.bind, ASSERT, hs, hl, h0]
  · simp [Except.bind, ASSERT, hs, hl, h0]

theorem normal_switch_shape (s : KeyboardState) (c : Nat) (hc : c ≠ I8042_CMD_RESEND) :
    ∃ d, normal_switch s c = .ok d ∧
      (c ≠ 0xF0 → c ≠ 0xED → c ≠ 0xEB → d.state.data_port_state = s.data_port_state) ∧
      (c ≠ 0x60 → c ≠ 0x45 → d.output ≠ []) := by
  unfold normal_switch
  simp only [if_neg hc]
  split_ifs with h1 h2 h3 h4 h5 h6 h7 h8 h9
  · exact ⟨_, rfl, fun h => absurd h1 h, by simp⟩
  · refine ⟨_, rfl, fun _ ha hb => ?_, by simp⟩
    rcases h2 with h | h
    · exact absurd h ha
    · exact absurd h hb
  · exact ⟨_, rfl, fun _ _ _ => rfl, by simp⟩
  · exact ⟨_, rfl, fun _ _ _ => rfl, by simp⟩
  · exact ⟨_, rfl, fun _ _ _ => rfl, by simp⟩
  · exact ⟨_, rfl, fun _ _ _ => rfl, by simp⟩
  · exact ⟨_, rfl, fun _ _ _ => rfl, by simp⟩
  · exact ⟨_, rfl, fun _ _ _ => rfl, by simp⟩
  · refine ⟨_, rfl, fun _ _ _ => rfl, fun ha hb => ?_⟩
    rcases h9 with h | h
    · exact absurd h ha
    · exact absurd h hb
  · exact ⟨_, rfl, fun _ _ _ => rfl, by simp⟩

/-- C8 (as stated, refuted): from the initial state the byte 0xF4 returns `R = [0xFA]`, and
the immediately following resend command does not return `R`: it returns `[0xFA, 0xFA]`. -/
theorem resend_does_not_return_exactly_R :
    ¬ ∀ s1 R, handle_keyboard_data (initial_state legacy8042) 0xF4 = .ok (s1, R) →
        (handle_keyboard_data s1 0xFE).map Prod.snd = .ok R := by
  intro h
  have h1 := h _ _ rfl
  have h2 : ∀ x : Except Fault (List Nat), x = .ok [0xFA, 0xFA] → x = .ok [0xFA] → False := by
    intro x hx hy
    rw [hx] at hy
    simp at hy
  exact h2 _ rfl h1

/-- C8 (amended): in Normal mode every data byte `c` other than 0xFE returns a response `R`;
when `R` is non-empty and the mode is still Normal, the immediately following resend command
returns ACK (0xFA) followed by exactly `R`. The mode stays Normal for every `c` except 0xF0,
0xED and 0xEB, and `R` is non-empty for every `c` except 0x60 and 0x45. -/
theorem resend_returns_ack_then_response (s : KeyboardState) (c : Nat)
    (hmode : s.data_port_state = .STATE_NORMAL) (hc : c ≠ 0xFE) :
    ∃ s1 R, handle_keyboard_data s c = .ok (s1, R) ∧
      (R ≠ [] → s1.data_port_state = .STATE_NORMAL →
        handle_keyboard_data s1 0xFE = .ok (s1, 0xFA :: R)) ∧
      (c ≠ 0xF0 → c ≠ 0xED → c ≠ 0xEB → s1.data_port_state = .STATE_NORMAL) ∧
      (c ≠ 0x60 → c ≠ 0x45 → R ≠ []) := by
  obtain ⟨d, hd, hstay, hout⟩ := normal_switch_shape s c hc
  have hsw : data_switch s c = .ok d := by
    rw [data_switch_normal s c hmode]
    exact hd
  have hnr : ¬ (s.data_port_state = .STATE_NORMAL ∧ c = I8042_CMD_RESEND) := fun h => hc h.2
  obtain ⟨hsave, hlen, -, -⟩ := data_switch_saves s c d hnr hsw
  have hlen4 : d.output.length ≤ MAX_SCAN_CODE_LEN := Nat.le_trans hlen (by decide)
  refine ⟨_, _, handle_keyboard_data_of_switch s c d hsw hsave hlen4, ?_, ?_, hout⟩
  · intro hne hm
    have h0 : d.output.length ≠ 0 := fun h => hne (List.length_eq_zero.mp h)
    rw [if_pos h0] at hm ⊢
    have h := resend_in_normal _ hm (show d.output.length < MAX_SCAN_CODE_LEN from
      Nat.lt_of_le_of_lt hlen (by decide))
    rw [show I8042_CMD_RESEND = 0xFE from rfl] at h
    rw [h]
    simp only [resend_buffer, map_range_save_output]
    rfl
  · intro h1 h2 h3
    have hm : d.state.data_port_state = .STATE_NORMAL := (hstay h1 h2 h3).trans hmode
    by_cases h0 : d.output.length ≠ 0
    · rw [if_pos h0]
      exact hm
    · rw [if_neg h0]
      exact hm

theorem resend_returns_ack_then_response_witness :
    ∃ s1 R, handle_keyboard_data (initial_state legacy8042) 0xF2 = .ok (s1, R) ∧
      (R ≠ [] → s1.data_port_state = .STATE_NORMAL →
        handle_keyboard_data s1 0xFE = .ok (s1, 0xFA :: R)) ∧
      ((0xF2 : Nat) ≠ 0xF0 → (0xF2 : Nat) ≠ 0xED → (0xF2 : Nat) ≠ 0xEB →
        s1.data_port_state = .STATE_NORMAL) ∧
      ((0xF2 : Nat) ≠ 0x60 → (0xF2 : Nat) ≠ 0x45 → R ≠ []) :=
  resend_returns_ack_then_response (initial_state legacy8042) 0xF2 rfl (by decide)

/-- C9: for every state and every data byte that is not handled as the resend command (0xFE
in Normal mode), whenever `handle_keyboard_data` returns a non-empty response `R` the resend
buffer afterwards holds exactly `R`, and whenever it returns an empty response the resend
buffer is unchanged; and it does return, provided the latched address is inside
`controller_ram` when a configuration byte is awaited. -/
theorem response_overwrites_resend_buffer (s : KeyboardState) (data : Nat)
    (hnr : ¬ (s.data_port_state = .STATE_NORMAL ∧ data = 0xFE)) :
    (∀ s1 R, handle_keyboard_data s data = .ok (s1, R) →
        (R ≠ [] → resend_buffer s1 = R ∧ s1.resend_command_len = R.length) ∧
        (R = [] → resend_buffer s1 = resend_buffer s ∧
          s1.resend_command = s.resend_command ∧
          s1.resend_command_len = s.resend_command_len)) ∧
      ((s.data_port_state = .STATE_WRITE_CMD_BYTE → s.controller_ram_address < 0x20) →
        ∃ s1 R, handle_keyboard_data s data = .ok (s1, R)) := by
  have key : ∀ d, data_switch s data = .ok d →
      handle_keyboard_data s data =
        .ok (if d.output.length ≠ 0 then
            { d.state with
              resend_command := save_output d.state.resend_command d.output
              resend_command_len := d.output.length }
          else d.state, d.output) := by
    intro d hd
    obtain ⟨hsave, hlen, -, -⟩ := data_switch_saves s data d hnr hd
    exact handle_keyboard_data_of_switch s data d hd hsave (Nat.le_trans hlen (by decide))
  constructor
  · intro s1 R h
    cases hd : data_switch s data with
    | error e =>
      simp [handle_keyboard_data, hd, Except.bind] at h
    | ok d =>
      obtain ⟨-, -, hbuf, hblen⟩ := data_switch_saves s data d hnr hd
      rw [key d hd] at h
      cases h
      constructor
      · intro hne
        have h0 : d.output.length ≠ 0 := fun h => hne (List.length_eq_zero.mp h)
        rw [if_pos h0]
        exact ⟨map_range_save_output _ _, rfl⟩
      · intro he
        have h0 : ¬ d.output.length ≠ 0 := by simp [he]
        rw [if_neg h0]
        refine ⟨?_, hbuf, hblen⟩
        simp only [resend_buffer, hbuf, hblen]
  · intro haddr
    obtain ⟨d, hd⟩ := data_switch_returns s data hnr haddr
    exact ⟨_, _, key d hd⟩

theorem response_overwrites_resend_buffer_witness :
    (∀ s1 R, handle_keyboard_data (initial_state legacy8042) 0xF2 = .ok (s1, R) →
        (R ≠ [] → resend_buffer s1 = R ∧ s1.resend_command_len = R.length) ∧
        (R = [] → resend_buffer s1 = resend_buffer (initial_state legacy8042) ∧
          s1.resend_command = (initial_state legacy8042).resend_command ∧
          s1.resend_command_len = (initial_state legacy8042).resend_command_len)) ∧
      (((initial_state legacy8042).data_port_state = .STATE_WRITE_CMD_BYTE →
          (initial_state legacy8042).controller_ram_address < 0x20) →
        ∃ s1 R, handle_keyboard_data (initial_state legacy8042) 0xF2 = .ok (s1, R)) :=
  response_overwrites_resend_buffer (initial_state legacy8042) 0xF2 (by decide)

/-- C10: a data byte handled in Normal mode that is none of the supported codes, and a command
byte that is neither a recognised command nor inside the read window 0x20..0x3F or the write
window 0x60..0x7F, are answered by the single byte NAK (0xFE); the device becomes disabled,
the typematic delays become 500 ms and 91 ms, and the protocol mode is unchanged. -/
theorem unsupported_byte_is_nak (k : I8042Header) (s t : KeyboardState) (data command : Nat)
    (hmode : s.data_port_state = .STATE_NORMAL)
    (hdata : data ∉ [0xF0, 0xED, I8042_CMD_EX_SETLEDS, 0xF2, I8042_CMD_OK_GETID, 0xF3, 0xF4,
      0xF5, 0xF6, 0xFF, 0xFE, 0x60, 0x45])
    (hcmd : command ∉ [k.I8042_DIS_KB, k.I8042_ENA_KB, k.I8042_DIS_MOUSE, k.I8042_ENA_MOUSE,
      k.I8042_ECHO_MOUSE, k.I8042_SEND_TO_MOUSE])
    (hread : ¬ (0x20 ≤ command ∧ command ≤ 0x3F))
    (hwrite : ¬ (0x60 ≤ command ∧ command ≤ 0x7F)) :
    (∃ s1, handle_keyboard_data s data = .ok (s1, [0xFE]) ∧
        s1.i8042_enabled = 0 ∧ s1.refill_first_delay = 500 ∧ s1.refill_inter_delay = 91 ∧
        s1.data_port_state = s.data_port_state) ∧
      (∃ t1, handle_keyboard_command k t command = (t1, [0xFE]) ∧
        t1.i8042_enabled = 0 ∧ t1.refill_first_delay = 500 ∧ t1.refill_inter_delay = 91 ∧
        t1.data_port_state = t.data_port_state) := by
  constructor
  · simp only [List.mem_cons, List.mem_singleton, List.not_mem_nil, not_or, or_false] at hdata
    obtain ⟨h1, h2, h3, h4, h5, h6, h7, h8, h9, h10, h11, h12, h13⟩ := hdata
    have hsw : data_switch s data =
        .ok ⟨clean_underlying_buffer (reset_rate_and_delay { s with i8042_enabled := 0 }),
          [I8042_RET_NAK], true⟩ := by
      rw [data_switch_normal s data hmode]
      simp only [normal_switch]
      simp [I8042_CMD_GSCANSET, I8042_CMD_SETLEDS, I8042_CMD_GETID, I8042_CMD_SETREP,
        I8042_CMD_ENABLE, I8042_CMD_RESET_DIS, I8042_CMD_RESET_DEF, I8042_CMD_RESET_BAT,
        I8042_CMD_RESEND, h1, h2, h3, h4, h5, h6, h7, h8, h9, h10, h11, h12, h13]
    refine ⟨_, handle_keyboard_data_of_switch s data _ hsw rfl
      (show (1 : Nat) ≤ 4 from by decide), ?_⟩
    exact ⟨rfl, rfl, rfl, rfl⟩
  · simp only [List.mem_cons, List.mem_singleton, List.not_mem_nil, not_or, or_false] at hcmd
    obtain ⟨h1, h2, h3, h4, h5, h6⟩ := hcmd
    have hr0 : command ≠ I8042_READ_CMD_BYTE := by
      intro h
      apply hread
      simp [h, I8042_READ_CMD_BYTE]
    have hw0 : command ≠ I8042_WRITE_CMD_BYTE := by
      intro h
      apply hwrite
      simp [h, I8042_WRITE_CMD_BYTE]
    have hr : ¬ (command ≥ I8042_READ_CTL_RAM ∧ command ≤ I8042_READ_CTL_RAM_END) := by
      simp only [I8042_READ_CTL_RAM, I8042_READ_CTL_RAM_END]
      omega
    have hw : ¬ (command ≥ I8042_WRITE_CTL_RAM ∧ command ≤ I8042_WRITE_CTL_RAM_END) := by
      simp only [I8042_WRITE_CTL_RAM, I8042_WRITE_CTL_RAM_END]
      omega
    refine ⟨clean_underlying_buffer (reset_rate_and_delay { t with i8042_enabled := 0 }),
      ?_, rfl, rfl, rfl, rfl⟩
    simp only [handle_keyboard_command, if_neg hr0, if_neg hw0, if_neg h1, if_neg h2, if_neg h3,
      if_neg h4, if_neg h5, if_neg h6, if_neg hr, if_neg hw]
    rfl

theorem unsupported_byte_is_nak_witness :
    (∃ s1, handle_keyboard_data (initial_state legacy8042) 0x99 = .ok (s1, [0xFE]) ∧
        s1.i8042_enabled = 0 ∧ s1.refill_first_delay = 500 ∧ s1.refill_inter_delay = 91 ∧
        s1.data_port_state = (initial_state legacy8042).data_port_state) ∧
      (∃ t1, handle_keyboard_command legacy8042 (initial_state legacy8042) 0x99 = (t1, [0xFE]) ∧
        t1.i8042_enabled = 0 ∧ t1.refill_first_delay = 500 ∧ t1.refill_inter_delay = 91 ∧
        t1.data_port_state = (initial_state legacy8042).data_port_state) :=
  unsupported_byte_is_nak legacy8042 (initial_state legacy8042) (initial_state legacy8042) 0x99
    0x99 rfl (by decide) (by decide) (by decide) (by decide)

/-! ### Responses that are saved for resend -/

theorem handle_keyboard_data_saved (s : KeyboardState) (data : Nat) (st : KeyboardState)
    (out : List Nat) (h : data_switch s data = .ok ⟨st, out, true⟩) (hne : out ≠ [])
    (hl : out.length ≤ MAX_SCAN_CODE_LEN) :
    handle_keyboard_data s data =
      .ok ({ st with
          resend_command := save_output st.resend_command out
          resend_command_len := out.length }, out) := by
  have h0 : out.length ≠ 0 := fun h => hne (List.length_eq_zero.mp h)
  rw [handle_keyboard_data_of_switch s data _ h rfl hl]
  simp only [h0, ne_eq, not_false_eq_true, if_true]

theorem handle_keyboard_data_silent (s : KeyboardState) (data : Nat) (st : KeyboardState)
    (h : data_switch s data = .ok ⟨st, [], true⟩) :
    handle_keyboard_data s data = .ok (st, []) := by
  rw [handle_keyboard_data_of_switch s data _ h rfl (Nat.zero_le _)]
  rfl

theorem legacy8042_well_formed : legacy8042.labels_distinct ∧ legacy8042.outside_windows := by
  decide

/-! ### Scancode-set selection -/

theorem data_switch_scancode (s : KeyboardState) (data : Nat)
    (hmode : s.data_port_state = .STATE_SCANCODE) :
    data_switch s data =
      if data = SCANCODE_GET_SET then
        .ok ⟨{ s with data_port_state := .STATE_NORMAL },
          [I8042_RET_ACK, s.scancode_set % 256], true⟩
      else
        .ok ⟨{ s with scancode_set := data, data_port_state := .STATE_NORMAL },
          [I8042_RET_ACK], true⟩ := by
  unfold data_switch
  rw [hmode]

theorem select_scancode_set_first (s : KeyboardState)
    (hmode : s.data_port_state = .STATE_NORMAL) :
    handle_keyboard_data s I8042_CMD_GSCANSET =
      .ok ({ s with
          data_port_state := .STATE_SCANCODE
          resend_command := save_output s.resend_command [I8042_RET_ACK]
          resend_command_len := 1 }, [I8042_RET_ACK]) := by
  have h : data_switch s I8042_CMD_GSCANSET =
      .ok ⟨{ s with data_port_state := .STATE_SCANCODE }, [I8042_RET_ACK], true⟩ := by
    rw [data_switch_normal s _ hmode]
    rfl
  rw [handle_keyboard_data_saved s _ _ _ h (by simp) (show (1 : Nat) ≤ 4 from by decide)]
  rfl

theorem scancode_value_get (s : KeyboardState) (hmode : s.data_port_state = .STATE_SCANCODE) :
    handle_keyboard_data s SCANCODE_GET_SET =
      .ok ({ s with
          data_port_state := .STATE_NORMAL
          resend_command := save_output s.resend_command [I8042_RET_ACK, s.scancode_set % 256]
          resend_command_len := 2 }, [I8042_RET_ACK, s.scancode_set % 256]) := by
  have h : data_switch s SCANCODE_GET_SET =
      .ok ⟨{ s with data_port_state := .STATE_NORMAL },
        [I8042_RET_ACK, s.scancode_set % 256], true⟩ := by
    rw [data_switch_scancode s _ hmode, if_pos rfl]
  rw [handle_keyboard_data_saved s _ _ _ h (by simp) (show (2 : Nat) ≤ 4 from by decide)]
  rfl

theorem scancode_value_set (s : KeyboardState) (v : Nat)
    (hmode : s.data_port_state = .STATE_SCANCODE) (hv : v ≠ SCANCODE_GET_SET) :
    handle_keyboard_data s v =
      .ok ({ s with
          scancode_set := v
          data_port_state := .STATE_NORMAL
          resend_command := save_output s.resend_command [I8042_RET_ACK]
          resend_command_len := 1 }, [I8042_RET_ACK]) := by
  have h : data_switch s v =
      .ok ⟨{ s with scancode_set := v, data_port_state := .STATE_NORMAL },
        [I8042_RET_ACK], true⟩ := by
    rw [data_switch_scancode s _ hmode, if_neg hv]
  rw [handle_keyboard_data_saved s _ _ _ h (by simp) (show (1 : Nat) ≤ 4 from by decide)]
  rfl

theorem scancode_value (s1 : KeyboardState) (v : Nat)
    (hmode : s1.data_port_state = .STATE_SCANCODE) (hset : s1.scancode_set < 256) :
    ∃ s2, handle_keyboard_data s1 v =
        .ok (s2, if v = SCANCODE_GET_SET then [I8042_RET_ACK, s1.scancode_set]
          else [I8042_RET_ACK]) ∧
      s2.scancode_set = (if v = SCANCODE_GET_SET then s1.scancode_set else v) ∧
      s2.data_port_state = .STATE_NORMAL := by
  by_cases hv : v = SCANCODE_GET_SET
  · subst hv
    refine ⟨{ s1 with
        data_port_state := .STATE_NORMAL
        resend_command := save_output s1.resend_command [I8042_RET_ACK, s1.scancode_set]
        resend_command_len := 2 }, ?_, ?_, rfl⟩
    · rw [scancode_value_get s1 hmode, Nat.mod_eq_of_lt hset, if_pos rfl]
    · rw [if_pos rfl]
  · refine ⟨{ s1 with
        scancode_set := v
        data_port_state := .STATE_NORMAL
        resend_command := save_output s1.resend_command [I8042_RET_ACK]
        resend_command_len := 1 }, ?_, ?_, rfl⟩
    · rw [scancode_value_set s1 v hmode hv, if_neg hv]
    · rw [if_neg hv]

/-- C11: in Normal mode with active set `s.scancode_set` (a byte value), the data byte 0xF0
returns `[ACK]` and enters `STATE_SCANCODE`; the following byte `v` returns
`[ACK, active set]` and leaves the active set unchanged when `v` is `SCANCODE_GET_SET` (0),
and returns `[ACK]` and makes `v` the active set otherwise; in both cases the mode is Normal
again. -/
theorem select_scancode_set_transaction (s : KeyboardState) (v : Nat)
    (hmode : s.data_port_state = .STATE_NORMAL) (hset : s.scancode_set < 256) :
    ∃ s1, handle_keyboard_data s 0xF0 = .ok (s1, [0xFA]) ∧
      s1.data_port_state = .STATE_SCANCODE ∧ s1.scancode_set = s.scancode_set ∧
      ∃ s2, handle_keyboard_data s1 v =
          .ok (s2, if v = SCANCODE_GET_SET then [0xFA, s.scancode_set] else [0xFA]) ∧
        s2.scancode_set = (if v = SCANCODE_GET_SET then s.scancode_set else v) ∧
        s2.data_port_state = .STATE_NORMAL := by
  refine ⟨_, select_scancode_set_first s hmode, rfl, rfl, ?_⟩
  exact scancode_value _ v rfl hset

theorem select_scancode_set_transaction_witness :
    ∃ s1, handle_keyboard_data (initial_state legacy8042) 0xF0 = .ok (s1, [0xFA]) ∧
      s1.data_port_state = .STATE_SCANCODE ∧
      s1.scancode_set = (initial_state legacy8042).scancode_set ∧
      ∃ s2, handle_keyboard_data s1 1 =
          .ok (s2, if 1 = SCANCODE_GET_SET then [0xFA, (initial_state legacy8042).scancode_set]
            else [0xFA]) ∧
        s2.scancode_set =
          (if 1 = SCANCODE_GET_SET then (initial_state legacy8042).scancode_set else 1) ∧
        s2.data_port_state = .STATE_NORMAL :=
  select_scancode_set_transaction (initial_state legacy8042) 1 rfl (by decide)

/-- C12: the host can make an unsupported value the active scancode set. From the initial
state the data bytes 0xF0, 0x03 are both acknowledged and leave `scancode_set = 3` in Normal
mode, which is neither Set 1 nor Set 2; the encoder then fails with the unsupported-set
error at the mapped position (1, 1). -/
theorem host_selects_unsupported_set (k : I8042Header) :
    ∃ s1 s2, handle_keyboard_data (initial_state k) 0xF0 = .ok (s1, [0xFA]) ∧
      handle_keyboard_data s1 0x03 = .ok (s2, [0xFA]) ∧
      s2.data_port_state = .STATE_NORMAL ∧ s2.scancode_set = 3 ∧
      s2.scancode_set ≠ SCANCODE_SET_1 ∧ s2.scancode_set ≠ SCANCODE_SET_2 ∧
      ∀ scan_code len, matrix_callback 1 1 1 s2.scancode_set scan_code len =
        .ok ⟨.EC_ERROR_UNIMPLEMENTED, scan_code, 0⟩ := by
  exact ⟨_, _, select_scancode_set_first _ rfl,
    scancode_value_set _ 3 rfl (show (3 : Nat) ≠ 0 from by decide), rfl, rfl,
    show (3 : Nat) ≠ 1 from by decide, show (3 : Nat) ≠ 2 from by decide, fun _ _ => rfl⟩

/-! ### Typematic rate and delay -/

theorem and_shiftRight (v m i : Nat) : (v &&& m) >>> i = (v >>> i) &&& (m >>> i) := by
  apply Nat.eq_of_testBit_eq
  intro j
  simp only [Nat.testBit_shiftRight, Nat.testBit_and]

theorem first_delay_eq (v : Nat) :
    first_delay_of_rate v = ((250 * ((v >>> 5) &&& 3) : Nat) : Int) := by
  unfold first_delay_of_rate
  rw [and_shiftRight v 0x60 5, Nat.mul_comm]
  rfl

theorem set_rate_in_normal (s : KeyboardState) (hmode : s.data_port_state = .STATE_NORMAL) :
    handle_keyboard_data s I8042_CMD_SETREP =
      .ok ({ s with
          typematic_value_from_host := I8042_CMD_SETREP
          refill_first_delay := first_delay_of_rate I8042_CMD_SETREP
          refill_inter_delay := inter_delay_of_rate I8042_CMD_SETREP
          resend_command := save_output s.resend_command [I8042_RET_ACK]
          resend_command_len := 1 }, [I8042_RET_ACK]) := by
  have h : data_switch s I8042_CMD_SETREP =
      .ok ⟨{ s with
          typematic_value_from_host := I8042_CMD_SETREP
          refill_first_delay := first_delay_of_rate I8042_CMD_SETREP
          refill_inter_delay := inter_delay_of_rate I8042_CMD_SETREP }, [I8042_RET_ACK], true⟩ := by
    rw [data_switch_normal s _ hmode]
    rfl
  rw [handle_keyboard_data_saved s _ _ _ h (by simp) (show (1 : Nat) ≤ 4 from by decide)]
  rfl

/-- C13: the first-repeat delay computed by the code is 250 ms times the value of bits 5-6,
without the `+ 1` of the documented encoding: it is always 250 ms less than the specified
delay, so the values 0, 1, 2, 3 of bits 5-6 give 0, 250, 500, 750 ms. The data byte 0xF3
in Normal mode, the rate byte the code applies, leaves `refill_first_delay = 750` where the
specification gives 1000. -/
theorem first_delay_is_one_step_short (k : I8042Header) (v : Nat) :
    first_delay_of_rate v + 250 = spec_first_delay v ∧
      first_delay_of_rate 0x00 = 0 ∧ spec_first_delay 0x00 = 250 ∧
      first_delay_of_rate 0x20 = 250 ∧ first_delay_of_rate 0x40 = 500 ∧
      first_delay_of_rate 0x60 = 750 ∧
      ∃ s1, handle_keyboard_data (initial_state k) 0xF3 = .ok (s1, [0xFA]) ∧
        s1.typematic_value_from_host = 0xF3 ∧
        s1.refill_first_delay = first_delay_of_rate s1.typematic_value_from_host ∧
        s1.refill_first_delay = 750 ∧ spec_first_delay 0xF3 = 1000 := by
  refine ⟨?_, by decide, by decide, by decide, by decide, by decide, ?_⟩
  · rw [first_delay_eq]
    unfold spec_first_delay
    push_cast
    ring
  · exact ⟨_, set_rate_in_normal _ rfl, rfl, rfl, rfl, by decide⟩

theorem reset_dis_in_normal (s : KeyboardState) (hmode : s.data_port_state = .STATE_NORMAL) :
    handle_keyboard_data s I8042_CMD_RESET_DIS =
      .ok ({ s with
          i8042_enabled := 0
          typematic_value_from_host := DEFAULT_TYPEMATIC_VALUE
          refill_first_delay := DEFAULT_FIRST_DELAY
          refill_inter_delay := DEFAULT_INTER_DELAY
          resend_command := save_output s.resend_command [I8042_RET_ACK]
          resend_command_len := 1 }, [I8042_RET_ACK]) := by
  have h : data_switch s I8042_CMD_RESET_DIS =
      .ok ⟨clean_underlying_buffer (reset_rate_and_delay { s with i8042_enabled := 0 }),
        [I8042_RET_ACK], true⟩ := by
    rw [data_switch_normal s _ hmode]
    rfl
  rw [handle_keyboard_data_saved s _ _ _ h (by simp) (show (1 : Nat) ≤ 4 from by decide)]
  rfl

theorem reset_def_in_normal (s : KeyboardState) (hmode : s.data_port_state = .STATE_NORMAL) :
    handle_keyboard_data s I8042_CMD_RESET_DEF =
      .ok ({ s with
          typematic_value_from_host := DEFAULT_TYPEMATIC_VALUE
          refill_first_delay := DEFAULT_FIRST_DELAY
          refill_inter_delay := DEFAULT_INTER_DELAY
          resend_command := save_output s.resend_command [I8042_RET_ACK]
          resend_command_len := 1 }, [I8042_RET_ACK]) := by
  have h : data_switch s I8042_CMD_RESET_DEF =
      .ok ⟨clean_underlying_buffer (reset_rate_and_delay s), [I8042_RET_ACK], true⟩ := by
    rw [data_switch_normal s _ hmode]
    rfl
  rw [handle_keyboard_data_saved s _ _ _ h (by simp) (show (1 : Nat) ≤ 4 from by decide)]
  rfl

/-- C15: in Normal mode the data bytes 0xF5 and 0xF6 each return exactly `[ACK]`, leave the
mode Normal and set the typematic state to its defaults (first delay 500 ms, inter delay
91 ms, rate byte `DEFAULT_TYPEMATIC_VALUE`) whatever it was before; 0xF5 also clears
`i8042_enabled`, 0xF6 leaves it unchanged. -/
theorem reset_commands_restore_defaults (s : KeyboardState)
    (hmode : s.data_port_state = .STATE_NORMAL) :
    (∃ s1, handle_keyboard_data s 0xF5 = .ok (s1, [0xFA]) ∧
        s1.data_port_state = .STATE_NORMAL ∧
        s1.refill_first_delay = 500 ∧ s1.refill_inter_delay = 91 ∧
        s1.typematic_value_from_host = DEFAULT_TYPEMATIC_VALUE ∧
        s1.i8042_enabled = 0) ∧
      (∃ s2, handle_keyboard_data s 0xF6 = .ok (s2, [0xFA]) ∧
        s2.data_port_state = .STATE_NORMAL ∧
        s2.refill_first_delay = 500 ∧ s2.refill_inter_delay = 91 ∧
        s2.typematic_value_from_host = DEFAULT_TYPEMATIC_VALUE ∧
        s2.i8042_enabled = s.i8042_enabled) :=
  ⟨⟨_, reset_dis_in_normal s hmode, hmode, rfl, rfl, rfl, rfl⟩,
    ⟨_, reset_def_in_normal s hmode, hmode, rfl, rfl, rfl, rfl⟩⟩

theorem reset_commands_restore_defaults_witness :
    (∃ s1, handle_keyboard_data full_resend_state 0xF5 = .ok (s1, [0xFA]) ∧
        s1.data_port_state = .STATE_NORMAL ∧
        s1.refill_first_delay = 500 ∧ s1.refill_inter_delay = 91 ∧
        s1.typematic_value_from_host = DEFAULT_TYPEMATIC_VALUE ∧
        s1.i8042_enabled = 0) ∧
      (∃ s2, handle_keyboard_data full_resend_state 0xF6 = .ok (s2, [0xFA]) ∧
        s2.data_port_state = .STATE_NORMAL ∧
        s2.refill_first_delay = 500 ∧ s2.refill_inter_delay = 91 ∧
        s2.typematic_value_from_host = DEFAULT_TYPEMATIC_VALUE ∧
        s2.i8042_enabled = full_resend_state.i8042_enabled) :=
  reset_commands_restore_defaults full_resend_state rfl

/-- C16: the default rate byte restored by `reset_rate_and_delay` is 1, not 0x2B: the macro
`DEFAULT_TYPEMATIC_VALUE` joins its three fields with the logical `||`. Applying the
inter-repeat formula to the stored default rate byte gives 37 ms, not the stored default
inter delay of 91 ms, which is what the formula gives for 0x2B. -/
theorem default_rate_byte_is_one (s : KeyboardState) :
    DEFAULT_TYPEMATIC_VALUE = 1 ∧ DEFAULT_TYPEMATIC_VALUE ≠ 0x2B ∧
      (reset_rate_and_delay s).typematic_value_from_host = 1 ∧
      (reset_rate_and_delay s).refill_inter_delay = 91 ∧
      inter_delay_of_rate (reset_rate_and_delay s).typematic_value_from_host = 37 ∧
      spec_inter_delay (reset_rate_and_delay s).typematic_value_from_host = 37 ∧
      inter_delay_of_rate 0x2B = 91 ∧
      ((1 <<< 5) ||| (1 <<< 3) ||| (3 <<< 0) : Nat) = 0x2B :=
  ⟨by decide, by decide, rfl, rfl,
    show inter_delay_of_rate DEFAULT_TYPEMATIC_VALUE = 37 from by decide,
    show spec_inter_delay DEFAULT_TYPEMATIC_VALUE = 37 from by decide, by decide, by decide⟩

/-! ### Controller RAM, LEDs, auxiliary device, identify -/

theorem data_switch_write (s : KeyboardState) (data : Nat)
    (hmode : s.data_port_state = .STATE_WRITE_CMD_BYTE)
    (haddr : s.controller_ram_address < 0x20) :
    data_switch s data =
      .ok ⟨{ s with
          controller_ram := store s.controller_ram s.controller_ram_address data
          data_port_state := .STATE_NORMAL }, [I8042_RET_ACK], true⟩ := by
  unfold data_switch
  rw [hmode]
  exact if_pos haddr

theorem write_value (s : KeyboardState) (data : Nat)
    (hmode : s.data_port_state = .STATE_WRITE_CMD_BYTE)
    (haddr : s.controller_ram_address < 0x20) :
    handle_keyboard_data s data =
      .ok ({ s with
          controller_ram := store s.controller_ram s.controller_ram_address data
          data_port_state := .STATE_NORMAL
          resend_command := save_output s.resend_command [I8042_RET_ACK]
          resend_command_len := 1 }, [I8042_RET_ACK]) := by
  rw [handle_keyboard_data_saved s _ _ _ (data_switch_write s data hmode haddr) (by simp)
    (show (1 : Nat) ≤ 4 from by decide)]
  rfl

theorem window_is_no_label (k : I8042Header) (hk : k.outside_windows) (c : Nat)
    (hc : (0x20 ≤ c ∧ c ≤ 0x3F) ∨ (0x60 ≤ c ∧ c ≤ 0x7F)) :
    c ≠ k.I8042_DIS_KB ∧ c ≠ k.I8042_ENA_KB ∧ c ≠ k.I8042_DIS_MOUSE ∧
      c ≠ k.I8042_ENA_MOUSE ∧ c ≠ k.I8042_ECHO_MOUSE ∧ c ≠ k.I8042_SEND_TO_MOUSE := by
  have h : ∀ x ∈ [k.I8042_DIS_KB, k.I8042_ENA_KB, k.I8042_DIS_MOUSE, k.I8042_ENA_MOUSE,
      k.I8042_ECHO_MOUSE, k.I8042_SEND_TO_MOUSE], c ≠ x := by
    intro x hx hcx
    subst hcx
    have := hk c hx
    rcases hc with h1 | h1
    · exact this.1 h1
    · exact this.2 h1
  exact ⟨h _ (by simp), h _ (by simp), h _ (by simp), h _ (by simp), h _ (by simp),
    h _ (by simp)⟩

theorem command_write_window (k : I8042Header) (hk : k.outside_windows) (s : KeyboardState)
    (a : Nat) (ha : a < 32) :
    handle_keyboard_command k s (0x60 + a) =
      ({ s with
          data_port_state := .STATE_WRITE_CMD_BYTE
          controller_ram_address := a }, []) := by
  obtain ⟨h1, h2, h3, h4, h5, h6⟩ :=
    window_is_no_label k hk (0x60 + a) (Or.inr ⟨by omega, by omega⟩)
  have hr0 : 0x60 + a ≠ I8042_READ_CMD_BYTE := by
    simp only [I8042_READ_CMD_BYTE]
    omega
  have hsub : 0x60 + a - 0x60 = a := by omega
  by_cases ha0 : 0x60 + a = I8042_WRITE_CMD_BYTE
  · simp only [handle_keyboard_command, if_neg hr0, if_pos ha0, hsub]
  · have hr : ¬ (0x60 + a ≥ I8042_READ_CTL_RAM ∧ 0x60 + a ≤ I8042_READ_CTL_RAM_END) := by
      simp only [I8042_READ_CTL_RAM_END]
      omega
    have hw : 0x60 + a ≥ I8042_WRITE_CTL_RAM ∧ 0x60 + a ≤ I8042_WRITE_CTL_RAM_END := by
      simp only [I8042_WRITE_CMD_BYTE] at ha0
      simp only [I8042_WRITE_CTL_RAM, I8042_WRITE_CTL_RAM_END]
      omega
    simp only [handle_keyboard_command, if_neg hr0, if_neg ha0, if_neg h1, if_neg h2, if_neg h3,
      if_neg h4, if_neg h5, if_neg h6, if_neg hr, if_pos hw, hsub]

theorem command_read_window (k : I8042Header) (hk : k.outside_windows) (s : KeyboardState)
    (a : Nat) (ha : a < 32) :
    handle_keyboard_command k s (0x20 + a) = (s, [s.controller_ram a]) := by
  obtain ⟨h1, h2, h3, h4, h5, h6⟩ :=
    window_is_no_label k hk (0x20 + a) (Or.inl ⟨by omega, by omega⟩)
  have hsub : 0x20 + a - 0x20 = a := by omega
  by_cases ha0 : 0x20 + a = I8042_READ_CMD_BYTE
  · have h0 : a = 0 := by
      simp only [I8042_READ_CMD_BYTE] at ha0
      omega
    subst h0
    rfl
  · have hw0 : 0x20 + a ≠ I8042_WRITE_CMD_BYTE := by
      simp only [I8042_WRITE_CMD_BYTE]
      omega
    have hr : 0x20 + a ≥ I8042_READ_CTL_RAM ∧ 0x20 + a ≤ I8042_READ_CTL_RAM_END := by
      simp only [I8042_READ_CMD_BYTE] at ha0
      simp only [I8042_READ_CTL_RAM, I8042_READ_CTL_RAM_END]
      omega
    simp only [handle_keyboard_command, if_neg ha0, if_neg hw0, if_neg h1, if_neg h2, if_neg h3,
      if_neg h4, if_neg h5, if_neg h6, if_pos hr, hsub]

/-- C17: for every address `a` in 0..31, every byte `b` and every state, the command
`0x60 + a` returns no bytes and enters `STATE_WRITE_CMD_BYTE`; the following data byte `b`
returns `[ACK]`, returns to Normal mode, sets `controller_ram[a] = b` and leaves the other
entries unchanged; and a following command `0x20 + a` returns exactly `[b]` without
changing the state. The command codes of the header lie outside the two windows. -/
theorem controller_ram_round_trip (k : I8042Header) (s : KeyboardState) (a b : Nat)
    (hk : k.outside_windows) (ha : a < 32) :
    (handle_keyboard_command k s (0x60 + a)).2 = [] ∧
      (handle_keyboard_command k s (0x60 + a)).1.data_port_state = .STATE_WRITE_CMD_BYTE ∧
      ∃ s2, handle_keyboard_data (handle_keyboard_command k s (0x60 + a)).1 b =
          .ok (s2, [0xFA]) ∧
        s2.data_port_state = .STATE_NORMAL ∧ s2.controller_ram a = b ∧
        (∀ i, i ≠ a → s2.controller_ram i = s.controller_ram i) ∧
        handle_keyboard_command k s2 (0x20 + a) = (s2, [b]) := by
  rw [command_write_window k hk s a ha]
  refine ⟨rfl, rfl, _, write_value _ b rfl ha, rfl, ?_, ?_, ?_⟩
  · simp [store]
  · intro i hi
    simp [store, hi]
  · rw [command_read_window k hk _ a ha]
    simp [store]

theorem controller_ram_round_trip_witness :
    (handle_keyboard_command legacy8042 (initial_state legacy8042) (0x60 + 5)).2 = [] ∧
      (handle_keyboard_command legacy8042 (initial_state legacy8042)
        (0x60 + 5)).1.data_port_state = .STATE_WRITE_CMD_BYTE ∧
      ∃ s2, handle_keyboard_data
          (handle_keyboard_command legacy8042 (initial_state legacy8042) (0x60 + 5)).1 0x47 =
          .ok (s2, [0xFA]) ∧
        s2.data_port_state = .STATE_NORMAL ∧ s2.controller_ram 5 = 0x47 ∧
        (∀ i, i ≠ 5 → s2.controller_ram i = (initial_state legacy8042).controller_ram i) ∧
        handle_keyboard_command legacy8042 s2 (0x20 + 5) = (s2, [0x47]) :=
  controller_ram_round_trip legacy8042 (initial_state legacy8042) 5 0x47 (by decide) (by decide)

theorem setleds_in_normal (s : KeyboardState) (hmode : s.data_port_state = .STATE_NORMAL) :
    handle_keyboard_data s I8042_CMD_SETLEDS =
      .ok ({ s with
          data_port_state := .STATE_SETLEDS
          resend_command := save_output s.resend_command [I8042_RET_ACK]
          resend_command_len := 1 }, [I8042_RET_ACK]) := by
  have h : data_switch s I8042_CMD_SETLEDS =
      .ok ⟨{ s with data_port_state := .STATE_SETLEDS }, [I8042_RET_ACK], true⟩ := by
    rw [data_switch_normal s _ hmode]
    rfl
  rw [handle_keyboard_data_saved s _ _ _ h (by simp) (show (1 : Nat) ≤ 4 from by decide)]
  rfl

theorem setleds_value (s : KeyboardState) (data : Nat)
    (hmode : s.data_port_state = .STATE_SETLEDS) :
    handle_keyboard_data s data =
      .ok ({ s with
          data_port_state := .STATE_NORMAL
          resend_command := save_output s.resend_command [I8042_RET_ACK]
          resend_command_len := 1 }, [I8042_RET_ACK]) := by
  have h : data_switch s data =
      .ok ⟨{ s with data_port_state := .STATE_NORMAL }, [I8042_RET_ACK], true⟩ := by
    unfold data_switch
    rw [hmode]
  rw [handle_keyboard_data_saved s _ _ _ h (by simp) (show (1 : Nat) ≤ 4 from by decide)]
  rfl

/-- C18: in Normal mode the data byte 0xED returns exactly `[ACK]` and enters
`STATE_SETLEDS`; the following data byte `b`, whatever it is, returns exactly `[ACK]`,
returns to Normal mode and leaves the scancode set, the controller RAM, the typematic
variables and the enabled flag as they were. -/
theorem set_leds_transaction (s : KeyboardState) (b : Nat)
    (hmode : s.data_port_state = .STATE_NORMAL) :
    ∃ s1, handle_keyboard_data s 0xED = .ok (s1, [0xFA]) ∧
      s1.data_port_state = .STATE_SETLEDS ∧
      ∃ s2, handle_keyboard_data s1 b = .ok (s2, [0xFA]) ∧
        s2.data_port_state = .STATE_NORMAL ∧ same_settings s s2 :=
  ⟨_, setleds_in_normal s hmode, rfl, _, setleds_value _ b rfl, rfl,
    rfl, rfl, rfl, rfl, rfl, rfl, rfl, rfl⟩

theorem set_leds_transaction_witness :
    ∃ s1, handle_keyboard_data (initial_state legacy8042) 0xED = .ok (s1, [0xFA]) ∧
      s1.data_port_state = .STATE_SETLEDS ∧
      ∃ s2, handle_keyboard_data s1 0xFF = .ok (s2, [0xFA]) ∧
        s2.data_port_state = .STATE_NORMAL ∧ same_settings (initial_state legacy8042) s2 :=
  set_leds_transaction (initial_state legacy8042) 0xFF rfl

theorem command_echo_mouse (k : I8042Header) (hk : k.labels_distinct) (s : KeyboardState) :
    handle_keyboard_command k s k.I8042_ECHO_MOUSE =
      ({ s with data_port_state := .STATE_ECHO_MOUSE }, []) := by
  unfold I8042Header.labels_distinct at hk
  simp only [List.nodup_cons, List.mem_cons, List.mem_singleton, not_or, List.not_mem_nil,
    not_false_eq_true, List.nodup_nil, and_true] at hk
  obtain ⟨h1, h2, h3, h4, h5, h6, h7⟩ := hk
  have e1 : k.I8042_ECHO_MOUSE ≠ I8042_READ_CMD_BYTE := fun h => h1.2.2.2.2.2.1 h.symm
  have e2 : k.I8042_ECHO_MOUSE ≠ I8042_WRITE_CMD_BYTE := fun h => h2.2.2.2.2.1 h.symm
  have e3 : k.I8042_ECHO_MOUSE ≠ k.I8042_DIS_KB := fun h => h3.2.2.2.1 h.symm
  have e4 : k.I8042_ECHO_MOUSE ≠ k.I8042_ENA_KB := fun h => h4.2.2.1 h.symm
  have e5 : k.I8042_ECHO_MOUSE ≠ k.I8042_DIS_MOUSE := fun h => h5.2.1 h.symm
  have e6 : k.I8042_ECHO_MOUSE ≠ k.I8042_ENA_MOUSE := fun h => h6.1 h.symm
  simp only [handle_keyboard_command, if_neg e1, if_neg e2, if_neg e3, if_neg e4, if_neg e5,
    if_neg e6, if_true]

theorem command_send_to_mouse (k : I8042Header) (hk : k.labels_distinct) (s : KeyboardState) :
    handle_keyboard_command k s k.I8042_SEND_TO_MOUSE =
      ({ s with data_port_state := .STATE_SEND_TO_MOUSE }, []) := by
  unfold I8042Header.labels_distinct at hk
  simp only [List.nodup_cons, List.mem_cons, List.mem_singleton, not_or, List.not_mem_nil,
    not_false_eq_true, List.nodup_nil, and_true] at hk
  obtain ⟨h1, h2, h3, h4, h5, h6, h7⟩ := hk
  have e1 : k.I8042_SEND_TO_MOUSE ≠ I8042_READ_CMD_BYTE := fun h => h1.2.2.2.2.2.2 h.symm
  have e2 : k.I8042_SEND_TO_MOUSE ≠ I8042_WRITE_CMD_BYTE := fun h => h2.2.2.2.2.2 h.symm
  have e3 : k.I8042_SEND_TO_MOUSE ≠ k.I8042_DIS_KB := fun h => h3.2.2.2.2 h.symm
  have e4 : k.I8042_SEND_TO_MOUSE ≠ k.I8042_ENA_KB := fun h => h4.2.2.2 h.symm
  have e5 : k.I8042_SEND_TO_MOUSE ≠ k.I8042_DIS_MOUSE := fun h => h5.2.2 h.symm
  have e6 : k.I8042_SEND_TO_MOUSE ≠ k.I8042_ENA_MOUSE := fun h => h6.2 h.symm
  have e7 : k.I8042_SEND_TO_MOUSE ≠ k.I8042_ECHO_MOUSE := fun h => h7 h.symm
  simp only [handle_keyboard_command, if_neg e1, if_neg e2, if_neg e3, if_neg e4, if_neg e5,
    if_neg e6, if_neg e7, if_true]

theorem echo_mouse_value (s : KeyboardState) (data : Nat)
    (hmode : s.data_port_state = .STATE_ECHO_MOUSE) :
    handle_keyboard_data s data =
      .ok ({ s with
          data_port_state := .STATE_NORMAL
          resend_command := save_output s.resend_command [data]
          resend_command_len := 1 }, [data]) := by
  have h : data_switch s data =
      .ok ⟨{ s with data_port_state := .STATE_NORMAL }, [data], true⟩ := by
    unfold data_switch
    rw [hmode]
  rw [handle_keyboard_data_saved s _ _ _ h (by simp) (show (1 : Nat) ≤ 4 from by decide)]
  rfl

theorem send_to_mouse_value (s : KeyboardState) (data : Nat)
    (hmode : s.data_port_state = .STATE_SEND_TO_MOUSE) :
    handle_keyboard_data s data = .ok ({ s with data_port_state := .STATE_NORMAL }, []) := by
  have h : data_switch s data = .ok ⟨{ s with data_port_state := .STATE_NORMAL }, [], true⟩ := by
    unfold data_switch
    rw [hmode]
  exact handle_keyboard_data_silent s _ _ h

/-- C19: a data byte that follows an auxiliary-device command is not interpreted as a
keyboard command. In every state, the command `I8042_ECHO_MOUSE` returns no bytes and the
following data byte `b` returns exactly `[b]`; the command `I8042_SEND_TO_MOUSE` returns no
bytes and the following data byte returns no bytes; in both cases the mode is Normal
afterwards and the scancode set, the controller RAM, the typematic variables and the enabled
flag are as before the command. The case labels of the header are pairwise distinct. -/
theorem auxiliary_byte_is_not_a_command (k : I8042Header) (s : KeyboardState) (b : Nat)
    (hk : k.labels_distinct) :
    ((handle_keyboard_command k s k.I8042_ECHO_MOUSE).2 = [] ∧
        ∃ s2, handle_keyboard_data (handle_keyboard_command k s k.I8042_ECHO_MOUSE).1 b =
            .ok (s2, [b]) ∧
          s2.data_port_state = .STATE_NORMAL ∧ same_settings s s2) ∧
      ((handle_keyboard_command k s k.I8042_SEND_TO_MOUSE).2 = [] ∧
        ∃ s3, handle_keyboard_data (handle_keyboard_command k s k.I8042_SEND_TO_MOUSE).1 b =
            .ok (s3, []) ∧
          s3.data_port_state = .STATE_NORMAL ∧ same_settings s s3) := by
  rw [command_echo_mouse k hk s, command_send_to_mouse k hk s]
  exact ⟨⟨rfl, _, echo_mouse_value _ b rfl, rfl, rfl, rfl, rfl, rfl, rfl, rfl, rfl, rfl⟩,
    ⟨rfl, _, send_to_mouse_value _ b rfl, rfl, rfl, rfl, rfl, rfl, rfl, rfl, rfl, rfl⟩⟩

theorem auxiliary_byte_is_not_a_command_witness :
    ((handle_keyboard_command legacy8042 (initial_state legacy8042) 0xd3).2 = [] ∧
        ∃ s2, handle_keyboard_data
            (handle_keyboard_command legacy8042 (initial_state legacy8042) 0xd3).1 0xFF =
            .ok (s2, [0xFF]) ∧
          s2.data_port_state = .STATE_NORMAL ∧ same_settings (initial_state legacy8042) s2) ∧
      ((handle_keyboard_command legacy8042 (initial_state legacy8042) 0xd4).2 = [] ∧
        ∃ s3, handle_keyboard_data
            (handle_keyboard_command legacy8042 (initial_state legacy8042) 0xd4).1 0xFF =
            .ok (s3, []) ∧
          s3.data_port_state = .STATE_NORMAL ∧ same_settings (initial_state legacy8042) s3) :=
  auxiliary_byte_is_not_a_command legacy8042 (initial_state legacy8042) 0xFF (by decide)

theorem getid_in_normal (s : KeyboardState) (data : Nat)
    (hmode : s.data_port_state = .STATE_NORMAL)
    (hdata : data = I8042_CMD_GETID ∨ data = I8042_CMD_OK_GETID) :
    handle_keyboard_data s data =
      .ok ({ s with
          resend_command := save_output s.resend_command [I8042_RET_ACK, 0xab, 0x83]
          resend_command_len := 3 }, [I8042_RET_ACK, 0xab, 0x83]) := by
  have h : data_switch s data = .ok ⟨s, [I8042_RET_ACK, 0xab, 0x83], true⟩ := by
    rw [data_switch_normal s _ hmode]
    rcases hdata with h | h <;> subst h <;> rfl
  rw [handle_keyboard_data_saved s _ _ _ h (by simp) (show (3 : Nat) ≤ 4 from by decide)]
  rfl

/-- C20: in Normal mode the data byte 0xF2, and likewise the alternate identify code
`I8042_CMD_OK_GETID`, returns exactly the three bytes `[0xFA, 0xAB, 0x83]`, leaves the mode
Normal and changes nothing in the state except the resend buffer, which then holds these
three bytes. -/
theorem identify_returns_id (s : KeyboardState) (hmode : s.data_port_state = .STATE_NORMAL) :
    ∃ s1 s2, handle_keyboard_data s 0xF2 = .ok (s1, [0xFA, 0xAB, 0x83]) ∧
      handle_keyboard_data s I8042_CMD_OK_GETID = .ok (s2, [0xFA, 0xAB, 0x83]) ∧
      s1.data_port_state = .STATE_NORMAL ∧ s2.data_port_state = .STATE_NORMAL ∧
      s1 = { s with
        resend_command := s1.resend_command
        resend_command_len := s1.resend_command_len } ∧
      s2 = { s with
        resend_command := s2.resend_command
        resend_command_len := s2.resend_command_len } ∧
      resend_buffer s1 = [0xFA, 0xAB, 0x83] ∧ resend_buffer s2 = [0xFA, 0xAB, 0x83] :=
  ⟨_, _, getid_in_normal s 0xF2 hmode (Or.inl rfl),
    getid_in_normal s I8042_CMD_OK_GETID hmode (Or.inr rfl), hmode, hmode, rfl, rfl,
    map_range_save_output _ _, map_range_save_output _ _⟩

theorem identify_returns_id_witness :
    ∃ s1 s2, handle_keyboard_data full_resend_state 0xF2 = .ok (s1, [0xFA, 0xAB, 0x83]) ∧
      handle_keyboard_data full_resend_state I8042_CMD_OK_GETID =
        .ok (s2, [0xFA, 0xAB, 0x83]) ∧
      s1.data_port_state = .STATE_NORMAL ∧ s2.data_port_state = .STATE_NORMAL ∧
      s1 = { full_resend_state with
        resend_command := s1.resend_command
        resend_command_len := s1.resend_command_len } ∧
      s2 = { full_resend_state with
        resend_command := s2.resend_command
        resend_command_len := s2.resend_command_len } ∧
      resend_buffer s1 = [0xFA, 0xAB, 0x83] ∧ resend_buffer s2 = [0xFA, 0xAB, 0x83] :=
  identify_returns_id full_resend_state rfl

/-! ### Self-test, ignored bytes, flag commands -/

theorem reset_bat_in_normal (s : KeyboardState) (hmode : s.data_port_state = .STATE_NORMAL) :
    handle_keyboard_data s I8042_CMD_RESET_BAT =
      .ok ({ s with
          i8042_enabled := 0
          resend_command :=
            save_output s.resend_command [I8042_RET_ACK, I8042_RET_BAT, I8042_RET_BAT]
          resend_command_len := 3 }, [I8042_RET_ACK, I8042_RET_BAT, I8042_RET_BAT]) := by
  have h : data_switch s I8042_CMD_RESET_BAT =
      .ok ⟨{ s with i8042_enabled := 0 },
        [I8042_RET_ACK, I8042_RET_BAT, I8042_RET_BAT], true⟩ := by
    rw [data_switch_normal s _ hmode]
    rfl
  rw [handle_keyboard_data_saved s _ _ _ h (by simp) (show (3 : Nat) ≤ 4 from by decide)]
  rfl

theorem ignored_in_normal (s : KeyboardState) (data : Nat)
    (hmode : s.data_port_state = .STATE_NORMAL) (hdata : data = 0x60 ∨ data = 0x45) :
    handle_keyboard_data s data = .ok (s, []) := by
  have h : data_switch s data = .ok ⟨s, [], true⟩ := by
    rw [data_switch_normal s _ hmode]
    rcases hdata with h | h <;> subst h <;> rfl
  exact handle_keyboard_data_silent s _ _ h

/-- C21: in Normal mode the data byte 0xFF returns exactly the three bytes ACK (0xFA),
`I8042_RET_BAT` (0xAA), `I8042_RET_BAT`, clears `i8042_enabled` and leaves the mode
Normal. -/
theorem self_test_returns_bat (s : KeyboardState) (hmode : s.data_port_state = .STATE_NORMAL) :
    ∃ s1, handle_keyboard_data s 0xFF = .ok (s1, [0xFA, 0xAA, 0xAA]) ∧
      s1.i8042_enabled = 0 ∧ s1.data_port_state = .STATE_NORMAL :=
  ⟨_, reset_bat_in_normal s hmode, rfl, hmode⟩

theorem self_test_returns_bat_witness :
    ∃ s1, handle_keyboard_data full_resend_state 0xFF = .ok (s1, [0xFA, 0xAA, 0xAA]) ∧
      s1.i8042_enabled = 0 ∧ s1.data_port_state = .STATE_NORMAL :=
  self_test_returns_bat full_resend_state rfl

/-- C22: in Normal mode the data bytes 0x60 and 0x45 return no bytes and leave the entire
state unchanged, the resend buffer included, so a following resend command replays the
response that preceded them (shown for a buffer of at most 3 bytes, the only length for
which the resend command returns). -/
theorem legacy_bytes_are_ignored (s : KeyboardState)
    (hmode : s.data_port_state = .STATE_NORMAL) :
    handle_keyboard_data s 0x60 = .ok (s, []) ∧
      handle_keyboard_data s 0x45 = .ok (s, []) ∧
      (s.resend_command_len < MAX_SCAN_CODE_LEN →
        ((handle_keyboard_data s 0x60).bind fun r => handle_keyboard_data r.1 0xFE) =
            .ok (s, 0xFA :: resend_buffer s) ∧
          ((handle_keyboard_data s 0x45).bind fun r => handle_keyboard_data r.1 0xFE) =
            .ok (s, 0xFA :: resend_buffer s)) := by
  have h60 := ignored_in_normal s 0x60 hmode (Or.inl rfl)
  have h45 := ignored_in_normal s 0x45 hmode (Or.inr rfl)
  refine ⟨h60, h45, fun hlen => ?_⟩
  rw [h60, h45]
  exact ⟨resend_in_normal s hmode hlen, resend_in_normal s hmode hlen⟩

theorem legacy_bytes_are_ignored_witness :
    handle_keyboard_data (initial_state legacy8042) 0x60 =
        .ok (initial_state legacy8042, []) ∧
      handle_keyboard_data (initial_state legacy8042) 0x45 =
        .ok (initial_state legacy8042, []) ∧
      ((initial_state legacy8042).resend_command_len < MAX_SCAN_CODE_LEN →
        ((handle_keyboard_data (initial_state legacy8042) 0x60).bind
            fun r => handle_keyboard_data r.1 0xFE) =
            .ok (initial_state legacy8042, 0xFA :: resend_buffer (initial_state legacy8042)) ∧
          ((handle_keyboard_data (initial_state legacy8042) 0x45).bind
            fun r => handle_keyboard_data r.1 0xFE) =
            .ok (initial_state legacy8042, 0xFA :: resend_buffer (initial_state legacy8042))) :=
  legacy_bytes_are_ignored (initial_state legacy8042) rfl

theorem labels_distinct_ne (k : I8042Header) (hk : k.labels_distinct) :
    (k.I8042_DIS_KB ≠ I8042_READ_CMD_BYTE ∧ k.I8042_DIS_KB ≠ I8042_WRITE_CMD_BYTE) ∧
      (k.I8042_ENA_KB ≠ I8042_READ_CMD_BYTE ∧ k.I8042_ENA_KB ≠ I8042_WRITE_CMD_BYTE ∧
        k.I8042_ENA_KB ≠ k.I8042_DIS_KB) ∧
      (k.I8042_DIS_MOUSE ≠ I8042_READ_CMD_BYTE ∧ k.I8042_DIS_MOUSE ≠ I8042_WRITE_CMD_BYTE ∧
        k.I8042_DIS_MOUSE ≠ k.I8042_DIS_KB ∧ k.I8042_DIS_MOUSE ≠ k.I8042_ENA_KB) ∧
      (k.I8042_ENA_MOUSE ≠ I8042_READ_CMD_BYTE ∧ k.I8042_ENA_MOUSE ≠ I8042_WRITE_CMD_BYTE ∧
        k.I8042_ENA_MOUSE ≠ k.I8042_DIS_KB ∧ k.I8042_ENA_MOUSE ≠ k.I8042_ENA_KB ∧
        k.I8042_ENA_MOUSE ≠ k.I8042_DIS_MOUSE) := by
  unfold I8042Header.labels_distinct at hk
  simp only [List.nodup_cons, List.mem_cons, List.mem_singleton, not_or, List.not_mem_nil,
    not_false_eq_true, List.nodup_nil, and_true] at hk
  obtain ⟨h1, h2, h3, h4, h5, -⟩ := hk
  exact ⟨⟨fun h => h1.2.1 h.symm, fun h => h2.1 h.symm⟩,
    ⟨fun h => h1.2.2.1 h.symm, fun h => h2.2.1 h.symm, fun h => h3.1 h.symm⟩,
    ⟨fun h => h1.2.2.2.1 h.symm, fun h => h2.2.2.1 h.symm, fun h => h3.2.1 h.symm,
      fun h => h4.1 h.symm⟩,
    ⟨fun h => h1.2.2.2.2.1 h.symm, fun h => h2.2.2.2.1 h.symm, fun h => h3.2.2.1 h.symm,
      fun h => h4.2.1 h.symm, fun h => h5.1 h.symm⟩⟩

theorem command_dis_kb (k : I8042Header) (hk : k.labels_distinct) (s : KeyboardState) :
    handle_keyboard_command k s k.I8042_DIS_KB = ({ s with i8042_enabled := 0 }, []) := by
  obtain ⟨⟨e1, e2⟩, -, -, -⟩ := labels_distinct_ne k hk
  simp only [handle_keyboard_command, if_neg e1, if_neg e2, if_true]

theorem command_ena_kb (k : I8042Header) (hk : k.labels_distinct) (s : KeyboardState) :
    handle_keyboard_command k s k.I8042_ENA_KB = ({ s with i8042_enabled := 1 }, []) := by
  obtain ⟨-, ⟨e1, e2, e3⟩, -, -⟩ := labels_distinct_ne k hk
  simp only [handle_keyboard_command, if_neg e1, if_neg e2, if_neg e3, if_true]

theorem command_dis_mouse (k : I8042Header) (hk : k.labels_distinct) (s : KeyboardState) :
    handle_keyboard_command k s k.I8042_DIS_MOUSE =
      ({ s with
          controller_ram :=
            store s.controller_ram 0 ((s.controller_ram 0 ||| k.I8042_AUX_DIS) % 256) },
        []) := by
  obtain ⟨-, -, ⟨e1, e2, e3, e4⟩, -⟩ := labels_distinct_ne k hk
  simp only [handle_keyboard_command, if_neg e1, if_neg e2, if_neg e3, if_neg e4, if_true]

theorem command_ena_mouse (k : I8042Header) (hk : k.labels_distinct) (s : KeyboardState) :
    handle_keyboard_command k s k.I8042_ENA_MOUSE =
      ({ s with
          controller_ram :=
            store s.controller_ram 0
              ((s.controller_ram 0 &&& (0xFFFFFFFF ^^^ k.I8042_AUX_DIS)) % 256) },
        []) := by
  obtain ⟨-, -, -, ⟨e1, e2, e3, e4, e5⟩⟩ := labels_distinct_ne k hk
  simp only [handle_keyboard_command, if_neg e1, if_neg e2, if_neg e3, if_neg e4, if_neg e5,
    if_true]

theorem byte_testBit_high (x i : Nat) (hx : x < 256) (hi : 8 ≤ i) : x.testBit i = false := by
  apply Nat.testBit_lt_two_pow
  calc x < 2 ^ 8 := hx
    _ ≤ 2 ^ i := Nat.pow_le_pow_right (by decide) hi

theorem or_mask_bits (x a i : Nat) (hx : x < 256) (ha : a < 256) :
    ((x ||| a) % 256).testBit i = (x.testBit i || a.testBit i) := by
  rw [show (256 : Nat) = 2 ^ 8 from rfl, Nat.testBit_mod_two_pow, Nat.testBit_or]
  by_cases hi : i < 8
  · simp [hi]
  · rw [byte_testBit_high x i hx (by omega), byte_testBit_high a i ha (by omega)]
    simp

theorem and_not_mask_bits (x a i : Nat) (hx : x < 256) :
    ((x &&& (0xFFFFFFFF ^^^ a)) % 256).testBit i = (x.testBit i && !a.testBit i) := by
  rw [show (256 : Nat) = 2 ^ 8 from rfl, Nat.testBit_mod_two_pow, Nat.testBit_and,
    Nat.testBit_xor, show (0xFFFFFFFF : Nat) = 2 ^ 32 - 1 from rfl,
    Nat.testBit_two_pow_sub_one]
  by_cases hi : i < 8
  · have h32 : i < 32 := by omega
    simp [hi, h32]
  · rw [byte_testBit_high x i hx (by omega)]
    simp

/-- C23: the four flag commands return no bytes and touch only their own flag. In every
state, `I8042_DIS_MOUSE` replaces `controller_ram[0]` by a byte in which the bits of
`I8042_AUX_DIS` are set and `I8042_ENA_MOUSE` by one in which they are clear, every other
bit of `controller_ram[0]` and every other entry being kept; `I8042_DIS_KB` and
`I8042_ENA_KB` set `i8042_enabled` to 0 and 1; nothing else in the state changes. The case
labels of the header are pairwise distinct, and `I8042_AUX_DIS` and `controller_ram[0]`
are byte values. -/
theorem flag_commands_touch_only_their_flag (k : I8042Header) (s : KeyboardState)
    (hk : k.labels_distinct) (hA : k.I8042_AUX_DIS < 256) (hram : s.controller_ram 0 < 256) :
    (∃ v, handle_keyboard_command k s k.I8042_DIS_MOUSE =
          ({ s with controller_ram := store s.controller_ram 0 v }, []) ∧
        (∀ i, k.I8042_AUX_DIS.testBit i = true → v.testBit i = true) ∧
        (∀ i, k.I8042_AUX_DIS.testBit i = false →
          v.testBit i = (s.controller_ram 0).testBit i) ∧
        ∀ j, j ≠ 0 → store s.controller_ram 0 v j = s.controller_ram j) ∧
      (∃ v, handle_keyboard_command k s k.I8042_ENA_MOUSE =
          ({ s with controller_ram := store s.controller_ram 0 v }, []) ∧
        (∀ i, k.I8042_AUX_DIS.testBit i = true → v.testBit i = false) ∧
        (∀ i, k.I8042_AUX_DIS.testBit i = false →
          v.testBit i = (s.controller_ram 0).testBit i) ∧
        ∀ j, j ≠ 0 → store s.controller_ram 0 v j = s.controller_ram j) ∧
      handle_keyboard_command k s k.I8042_DIS_KB = ({ s with i8042_enabled := 0 }, []) ∧
      handle_keyboard_command k s k.I8042_ENA_KB = ({ s with i8042_enabled := 1 }, []) := by
  refine ⟨⟨_, command_dis_mouse k hk s, ?_, ?_, ?_⟩, ⟨_, command_ena_mouse k hk s, ?_, ?_, ?_⟩,
    command_dis_kb k hk s, command_ena_kb k hk s⟩
  · intro i hi
    rw [or_mask_bits _ _ i hram hA, hi]
    simp
  · intro i hi
    rw [or_mask_bits _ _ i hram hA, hi]
    simp
  · intro j hj
    simp [store, hj]
  · intro i hi
    rw [and_not_mask_bits _ _ i hram, hi]
    simp
  · intro i hi
    rw [and_not_mask_bits _ _ i hram, hi]
    simp
  · intro j hj
    simp [store, hj]

theorem flag_commands_touch_only_their_flag_witness :
    (∃ v, handle_keyboard_command legacy8042 (initial_state legacy8042) 0xa7 =
          ({ initial_state legacy8042 with
              controller_ram := store (initial_state legacy8042).controller_ram 0 v }, []) ∧
        (∀ i, legacy8042.I8042_AUX_DIS.testBit i = true → v.testBit i = true) ∧
        (∀ i, legacy8042.I8042_AUX_DIS.testBit i = false →
          v.testBit i = ((initial_state legacy8042).controller_ram 0).testBit i) ∧
        ∀ j, j ≠ 0 → store (initial_state legacy8042).controller_ram 0 v j =
          (initial_state legacy8042).controller_ram j) ∧
      (∃ v, handle_keyboard_command legacy8042 (initial_state legacy8042) 0xa8 =
          ({ initial_state legacy8042 with
              controller_ram := store (initial_state legacy8042).controller_ram 0 v }, []) ∧
        (∀ i, legacy8042.I8042_AUX_DIS.testBit i = true → v.testBit i = false) ∧
        (∀ i, legacy8042.I8042_AUX_DIS.testBit i = false →
          v.testBit i = ((initial_state legacy8042).controller_ram 0).testBit i) ∧
        ∀ j, j ≠ 0 → store (initial_state legacy8042).controller_ram 0 v j =
          (initial_state legacy8042).controller_ram j) ∧
      handle_keyboard_command legacy8042 (initial_state legacy8042) 0xad =
        ({ initial_state legacy8042 with i8042_enabled := 0 }, []) ∧
      handle_keyboard_command legacy8042 (initial_state legacy8042) 0xae =
        ({ initial_state legacy8042 with i8042_enabled := 1 }, []) :=
  flag_commands_touch_only_their_flag legacy8042 (initial_state legacy8042) (by decide)
    (by decide) (by decide)

/-! ### The event entry point -/

theorem keyboard_state_changed_of_failure (s : KeyboardState) (row col is_pressed : Int)
    (scan_code : Nat → Nat) (len : Int) (r : Encoded)
    (h : matrix_callback (to_int8 row) (to_int8 col) (to_int8 is_pressed) s.scancode_set
      scan_code len = .ok r)
    (hret : r.ret ≠ .EC_SUCCESS) :
    keyboard_state_changed s row col is_pressed scan_code len = .error .assert_failed := by
  simp [keyboard_state_changed, h, Except.bind, hret, ASSERT]

theorem keyboard_state_changed_of_success (s : KeyboardState) (row col is_pressed : Int)
    (scan_code : Nat → Nat) (len : Int) (r : Encoded)
    (h : matrix_callback (to_int8 row) (to_int8 col) (to_int8 is_pressed) s.scancode_set
      scan_code len = .ok r)
    (hret : r.ret = .EC_SUCCESS) (hlen : r.len > 0) :
    keyboard_state_changed s row col is_pressed scan_code len = .ok r.bytes := by
  simp [keyboard_state_changed, h, Except.bind, hret, ASSERT, hlen]

/-- C24: when the encoder fails, `keyboard_state_changed` does not return: its failure
branch is `ASSERT(ret == EC_SUCCESS)`, which then prints and loops forever. This happens for
the unmapped position (0, 0), for the out-of-range row 9 and for an unsupported scancode
set; a mapped key is forwarded to the host. -/
theorem key_event_hangs_when_encode_fails (k : I8042Header) (scan_code : Nat → Nat)
    (len : Int) :
    keyboard_state_changed (initial_state k) 0 0 1 scan_code len = .error .assert_failed ∧
      keyboard_state_changed (initial_state k) 9 0 1 scan_code len = .error .assert_failed ∧
      keyboard_state_changed { initial_state k with scancode_set := 3 } 1 1 1 scan_code len =
        .error .assert_failed ∧
      keyboard_state_changed (initial_state k) 1 1 1 scan_code len = .ok [0x76] :=
  ⟨rfl, rfl, rfl, rfl⟩

theorem to_int8_of_small (x : Int) (h0 : -128 ≤ x) (h1 : x ≤ 127) : to_int8 x = x := by
  unfold to_int8
  omega

/-- C26: for a position inside the table and a supported set, whenever the encoder succeeds
the encoded sequence has between 1 and 3 bytes: it fits `MAX_SCAN_CODE_LEN` and `len > 0`
holds, so the event entry point forwards exactly these bytes. -/
theorem encoded_length_bounds (row col pressed : Int) (code_set : Nat)
    (scan_code : Nat → Nat) (len : Int) (r : Encoded)
    (hr0 : 0 ≤ row) (hr : row ≤ 7) (hc0 : 0 ≤ col) (hc : col ≤ 12)
    (hset : code_set = SCANCODE_SET_1 ∨ code_set = SCANCODE_SET_2)
    (hok : matrix_callback row col pressed code_set scan_code len = .ok r)
    (hsucc : r.ret = .EC_SUCCESS) :
    1 ≤ r.bytes.length ∧ r.bytes.length ≤ 3 ∧ r.bytes.length ≤ MAX_SCAN_CODE_LEN ∧
      r.len = r.bytes.length ∧ r.len > 0 ∧
      ∀ (s : KeyboardState) (is_pressed : Int), s.scancode_set = code_set →
        to_int8 is_pressed = pressed →
        keyboard_state_changed s row col is_pressed scan_code len = .ok r.bytes := by
  have hlen : r.len = 1 ∨ r.len = 2 ∨ r.len = 3 := by
    rw [matrix_callback_inside row col pressed code_set scan_code len hr0 hr hc0 hc hset] at hok
    generalize entry (table_of code_set) row.toNat col.toNat = m at hok
    unfold matrix_callback_output at hok
    by_cases hm : m = 0
    · rw [if_pos hm] at hok
      cases hok
      cases hsucc
    · rw [if_neg hm] at hok
      rcases hset with h | h <;> subst h <;>
        simp only [SCANCODE_SET_1, SCANCODE_SET_2, if_true, ASSERT,
          show ¬ ((2 : Nat) = 1) from by decide, if_false] at hok <;>
        split_ifs at hok <;> cases hok <;> simp
  have hbytes : r.bytes.length = r.len.toNat := by
    simp [Encoded.bytes]
  refine ⟨?_, ?_, ?_, ?_, ?_, ?_⟩
  · rw [hbytes]
    rcases hlen with h | h | h <;> rw [h] <;> decide
  · rw [hbytes]
    rcases hlen with h | h | h <;> rw [h] <;> decide
  · rw [hbytes]
    rcases hlen with h | h | h <;> rw [h] <;> decide
  · rw [hbytes]
    rcases hlen with h | h | h <;> rw [h] <;> rfl
  · rcases hlen with h | h | h <;> rw [h] <;> decide
  · intro s is_pressed hs hp
    apply keyboard_state_changed_of_success s row col is_pressed scan_code len r
    · rw [to_int8_of_small row (by omega) (by omega), to_int8_of_small col (by omega) (by omega),
        hp, hs]
      exact hok
    · exact hsucc
    · rcases hlen with h | h | h <;> rw [h] <;> decide

theorem encoded_length_bounds_witness :
    1 ≤ release_row0_col1_set2.bytes.length ∧ release_row0_col1_set2.bytes.length ≤ 3 ∧
      release_row0_col1_set2.bytes.length ≤ MAX_SCAN_CODE_LEN ∧
      release_row0_col1_set2.len = release_row0_col1_set2.bytes.length ∧
      release_row0_col1_set2.len > 0 ∧
      ∀ (s : KeyboardState) (is_pressed : Int), s.scancode_set = SCANCODE_SET_2 →
        to_int8 is_pressed = 0 →
        keyboard_state_changed s 0 1 is_pressed (fun _ => 0) 0 =
          .ok release_row0_col1_set2.bytes :=
  encoded_length_bounds 0 1 0 SCANCODE_SET_2 (fun _ => 0) 0 release_row0_col1_set2 (by decide)
    (by decide) (by decide) (by decide) (Or.inr rfl) rfl rfl

/-- C28: at the mapped position (row 1, column 4) of Set 1 the table entry is 0x0083, whose
last byte already has bit 7 set: OR-ing 0x80 into it changes nothing, and the release is
encoded as the same single byte 0x83 as the press. -/
theorem set1_release_equals_press (scan_code : Nat → Nat) (len : Int) :
    entry scancode_set1 1 4 = 0x0083 ∧
      (matrix_callback 1 4 1 SCANCODE_SET_1 scan_code len).map Encoded.bytes = .ok [0x83] ∧
      (matrix_callback 1 4 0 SCANCODE_SET_1 scan_code len).map Encoded.bytes = .ok [0x83] := by
  refine ⟨rfl, rfl, ?_⟩
  rw [matrix_callback_inside 1 4 0 SCANCODE_SET_1 scan_code len (by decide) (by decide)
    (by decide) (by decide) (Or.inl rfl),
    show entry (table_of SCANCODE_SET_1) (1 : Int).toNat (4 : Int).toNat = 0x83 from rfl]
  simp [matrix_callback_output, SCANCODE_SET_1, ASSERT, Except.map, Encoded.bytes, store,
    show List.range 1 = [0] from rfl]
  decide

/-- C27: in Normal mode the data byte 0xF3 returns `[ACK]`, leaves the mode Normal and
stores 0xF3 itself as the rate byte, with first delay 750 ms and inter delay 183 ms,
whatever the typematic variables were; no mode awaits a rate value, so whatever byte follows
is dispatched by the Normal-mode `switch` (a following 0x20, for instance, is answered by
NAK and restores the defaults). -/
theorem set_rate_takes_the_command_byte (s : KeyboardState)
    (hmode : s.data_port_state = .STATE_NORMAL) :
    ∃ s1, handle_keyboard_data s 0xF3 = .ok (s1, [0xFA]) ∧
      s1.data_port_state = .STATE_NORMAL ∧ s1.typematic_value_from_host = 0xF3 ∧
      s1.refill_first_delay = 750 ∧ s1.refill_inter_delay = 183 ∧
      (∀ b, data_switch s1 b = normal_switch s1 b) ∧
      ∃ s2, handle_keyboard_data s1 0x20 = .ok (s2, [0xFE]) ∧
        s2.typematic_value_from_host = DEFAULT_TYPEMATIC_VALUE ∧
        s2.refill_first_delay = 500 ∧ s2.refill_inter_delay = 91 := by
  refine ⟨_, set_rate_in_normal s hmode, hmode, rfl,
    show first_delay_of_rate I8042_CMD_SETREP = 750 from by decide,
    show inter_delay_of_rate I8042_CMD_SETREP = 183 from by decide,
    fun b => data_switch_normal _ b hmode, ?_⟩
  have h : ∀ t : KeyboardState, t.data_port_state = .STATE_NORMAL →
      data_switch t 0x20 =
        .ok ⟨clean_underlying_buffer (reset_rate_and_delay { t with i8042_enabled := 0 }),
          [I8042_RET_NAK], true⟩ := by
    intro t ht
    rw [data_switch_normal t _ ht]
    rfl
  exact ⟨_, handle_keyboard_data_saved _ _ _ _ (h _ hmode) (by simp)
    (show (1 : Nat) ≤ 4 from by decide), rfl, rfl, rfl⟩

theorem set_rate_takes_the_command_byte_witness :
    ∃ s1, handle_keyboard_data (initial_state legacy8042) 0xF3 = .ok (s1, [0xFA]) ∧
      s1.data_port_state = .STATE_NORMAL ∧ s1.typematic_value_from_host = 0xF3 ∧
      s1.refill_first_delay = 750 ∧ s1.refill_inter_delay = 183 ∧
      (∀ b, data_switch s1 b = normal_switch s1 b) ∧
      ∃ s2, handle_keyboard_data s1 0x20 = .ok (s2, [0xFE]) ∧
        s2.typematic_value_from_host = DEFAULT_TYPEMATIC_VALUE ∧
        s2.refill_first_delay = 500 ∧ s2.refill_inter_delay = 91 :=
  set_rate_takes_the_command_byte (initial_state legacy8042) rfl

/-! ### Invariants of the states reached by host bytes -/

theorem data_switch_address (s : KeyboardState) (data : Nat) (d : DataSwitch)
    (h : data_switch s data = .ok d) :
    d.state.controller_ram_address = s.controller_ram_address := by
  unfold data_switch at h
  cases hm : s.data_port_state <;> simp only [hm] at h
  · by_cases hd : data = I8042_CMD_RESEND
    · subst hd
      have e : normal_switch s I8042_CMD_RESEND =
          if s.resend_command_len ≤ MAX_SCAN_CODE_LEN then
            .ok ⟨s, [I8042_RET_ACK] ++ (List.range s.resend_command_len).map s.resend_command,
              false⟩
          else .error .out_of_bounds := rfl
      rw [e] at h
      split_ifs at h
      cases h
      rfl
    · unfold normal_switch at h
      simp only [if_neg hd] at h
      split_ifs at h <;> cases h <;> rfl
  · split_ifs at h <;> cases h <;> rfl
  · cases h; rfl
  · split_ifs at h
    cases h
    rfl
  · cases h; rfl
  · cases h; rfl

theorem resend_buffer_length (s : KeyboardState) :
    (resend_buffer s).length = s.resend_command_len := by
  simp [resend_buffer]

theorem data_step_invariant (s : KeyboardState) (data : Nat)
    (hlen : s.resend_command_len ≤ 3) (haddr : s.controller_ram_address < 0x20) :
    ∃ s1 out, handle_keyboard_data s data = .ok (s1, out) ∧ out.length ≤ 4 ∧
      s1.resend_command_len ≤ 3 ∧ s1.controller_ram_address < 0x20 := by
  by_cases hr : s.data_port_state = .STATE_NORMAL ∧ data = I8042_CMD_RESEND
  · obtain ⟨hmode, hdata⟩ := hr
    subst hdata
    refine ⟨s, _, resend_in_normal s hmode (Nat.lt_succ_of_le hlen), ?_, hlen, haddr⟩
    rw [List.length_cons, resend_buffer_length]
    omega
  · obtain ⟨d, hd⟩ := data_switch_returns s data hr (fun _ => haddr)
    obtain ⟨hsave, hout, -, hblen⟩ := data_switch_saves s data d hr hd
    have hda := data_switch_address s data d hd
    refine ⟨_, _, handle_keyboard_data_of_switch s data d hd hsave
      (Nat.le_trans hout (by decide)), Nat.le_trans hout (by decide), ?_, ?_⟩
    · by_cases h0 : d.output.length ≠ 0
      · rw [if_pos h0]
        exact hout
      · rw [if_neg h0, hblen]
        exact hlen
    · by_cases h0 : d.output.length ≠ 0
      · rw [if_pos h0]
        show d.state.controller_ram_address < 0x20
        rw [hda]
        exact haddr
      · rw [if_neg h0, hda]
        exact haddr

theorem command_step_invariant (k : I8042Header) (s : KeyboardState) (command : Nat)
    (haddr : s.controller_ram_address < 0x20) :
    (handle_keyboard_command k s command).2.length ≤ 1 ∧
      (handle_keyboard_command k s command).1.resend_command_len = s.resend_command_len ∧
      (handle_keyboard_command k s command).1.controller_ram_address < 0x20 := by
  by_cases h1 : command = I8042_READ_CMD_BYTE
  · simp only [handle_keyboard_command, if_pos h1]
    exact ⟨by simp, trivial, haddr⟩
  by_cases h2 : command = I8042_WRITE_CMD_BYTE
  · simp only [handle_keyboard_command, if_neg h1, if_pos h2]
    refine ⟨by simp, trivial, ?_⟩
    simp only [I8042_WRITE_CMD_BYTE] at h2
    omega
  by_cases h3 : command = k.I8042_DIS_KB
  · simp only [handle_keyboard_command, if_neg h1, if_neg h2, if_pos h3]
    exact ⟨by simp, trivial, haddr⟩
  by_cases h4 : command = k.I8042_ENA_KB
  · simp only [handle_keyboard_command, if_neg h1, if_neg h2, if_neg h3, if_pos h4]
    exact ⟨by simp, trivial, haddr⟩
  by_cases h5 : command = k.I8042_DIS_MOUSE
  · simp only [handle_keyboard_command, if_neg h1, if_neg h2, if_neg h3, if_neg h4, if_pos h5]
    exact ⟨by simp, trivial, haddr⟩
  by_cases h6 : command = k.I8042_ENA_MOUSE
  · simp only [handle_keyboard_command, if_neg h1, if_neg h2, if_neg h3, if_neg h4, if_neg h5,
      if_pos h6]
    exact ⟨by simp, trivial, haddr⟩
  by_cases h7 : command = k.I8042_ECHO_MOUSE
  · simp only [handle_keyboard_command, if_neg h1, if_neg h2, if_neg h3, if_neg h4, if_neg h5,
      if_neg h6, if_pos h7]
    exact ⟨by simp, trivial, haddr⟩
  by_cases h8 : command = k.I8042_SEND_TO_MOUSE
  · simp only [handle_keyboard_command, if_neg h1, if_neg h2, if_neg h3, if_neg h4, if_neg h5,
      if_neg h6, if_neg h7, if_pos h8]
    exact ⟨by simp, trivial, haddr⟩
  by_cases h9 : command ≥ I8042_READ_CTL_RAM ∧ command ≤ I8042_READ_CTL_RAM_END
  · simp only [handle_keyboard_command, if_neg h1, if_neg h2, if_neg h3, if_neg h4, if_neg h5,
      if_neg h6, if_neg h7, if_neg h8, if_pos h9]
    exact ⟨by simp, trivial, haddr⟩
  by_cases h10 : command ≥ I8042_WRITE_CTL_RAM ∧ command ≤ I8042_WRITE_CTL_RAM_END
  · simp only [handle_keyboard_command, if_neg h1, if_neg h2, if_neg h3, if_neg h4, if_neg h5,
      if_neg h6, if_neg h7, if_neg h8, if_neg h9, if_pos h10]
    refine ⟨by simp, trivial, ?_⟩
    simp only [I8042_WRITE_CTL_RAM_END] at h10
    omega
  · simp only [handle_keyboard_command, if_neg h1, if_neg h2, if_neg h3, if_neg h4, if_neg h5,
      if_neg h6, if_neg h7, if_neg h8, if_neg h9, if_neg h10]
    exact ⟨by simp, rfl, haddr⟩

theorem run_invariant (k : I8042Header) (bytes : List HostByte) (s : KeyboardState)
    (hlen : s.resend_command_len ≤ 3) (haddr : s.controller_ram_address < 0x20) :
    ∃ s1, run k s bytes = .ok s1 ∧ s1.resend_command_len ≤ 3 ∧
      s1.controller_ram_address < 0x20 := by
  induction bytes generalizing s with
  | nil => exact ⟨s, rfl, hlen, haddr⟩
  | cons x xs ih =>
    cases x with
    | data byte =>
      obtain ⟨s1, out, h, -, h1, h2⟩ := data_step_invariant s byte hlen haddr
      obtain ⟨s2, hrun, h3, h4⟩ := ih s1 h1 h2
      refine ⟨s2, ?_, h3, h4⟩
      simp only [run, step, h, Except.map, Except.bind]
      exact hrun
    | command byte =>
      obtain ⟨-, h1, h2⟩ := command_step_invariant k s byte haddr
      obtain ⟨s2, hrun, h3, h4⟩ := ih _ (h1 ▸ hlen) h2
      refine ⟨s2, ?_, h3, h4⟩
      simp only [run, step, Except.bind]
      exact hrun

theorem initial_state_invariant (k : I8042Header) :
    (initial_state k).resend_command_len ≤ 3 ∧ (initial_state k).controller_ram_address < 0x20 :=
  ⟨Nat.zero_le _, show (0 : Nat) < 0x20 from by decide⟩

/-- C7: in every state in Normal mode that the host reaches from the initial state by data
and command bytes, with resend buffer `B`, the data byte 0xFE returns ACK (0xFA) followed by
exactly `B` and leaves the resend buffer, the mode and all other state unchanged, so a second
resend returns the same response; from the initial state, 0xF4 returns `[ACK]` and the
following 0xFE returns `[ACK, ACK]`. The same holds in any state in Normal mode whose buffer
length is below `MAX_SCAN_CODE_LEN`. -/
theorem resend_replays_buffer (k : I8042Header) (bytes : List HostByte) (s : KeyboardState)
    (hrun : run k (initial_state k) bytes = .ok s)
    (hmode : s.data_port_state = .STATE_NORMAL) :
    handle_keyboard_data s 0xFE = .ok (s, 0xFA :: resend_buffer s) ∧
      ((handle_keyboard_data s 0xFE).bind fun r => handle_keyboard_data r.1 0xFE) =
        .ok (s, 0xFA :: resend_buffer s) ∧
      (∃ s1, handle_keyboard_data (initial_state k) 0xF4 = .ok (s1, [0xFA]) ∧
        handle_keyboard_data s1 0xFE = .ok (s1, [0xFA, 0xFA])) ∧
      ∀ t : KeyboardState, t.data_port_state = .STATE_NORMAL →
        t.resend_command_len < MAX_SCAN_CODE_LEN →
        handle_keyboard_data t 0xFE = .ok (t, 0xFA :: resend_buffer t) := by
  obtain ⟨s1, hrun1, hlen, -⟩ := run_invariant k bytes (initial_state k)
    (initial_state_invariant k).1 (initial_state_invariant k).2
  rw [hrun] at hrun1
  cases hrun1
  have h : handle_keyboard_data s 0xFE = .ok (s, 0xFA :: resend_buffer s) :=
    resend_in_normal s hmode (Nat.lt_succ_of_le hlen)
  refine ⟨h, ?_, ?_, fun t ht hl => resend_in_normal t ht hl⟩
  · rw [h]
    exact h
  · refine ⟨_, rfl, ?_⟩
    exact resend_in_normal _ rfl (show (1 : Nat) < 4 from by decide)

theorem resend_replays_buffer_witness :
    run legacy8042 (initial_state legacy8042) [.command 0xAE, .data 0xF2] =
        .ok identified_state ∧
      identified_state.data_port_state = .STATE_NORMAL ∧
      resend_buffer identified_state = [0xFA, 0xAB, 0x83] ∧
      handle_keyboard_data identified_state 0xFE =
        .ok (identified_state, [0xFA, 0xFA, 0xAB, 0x83]) :=
  ⟨rfl, rfl, rfl,
    (resend_replays_buffer legacy8042 [.command 0xAE, .data 0xF2] identified_state
      rfl rfl).1⟩

/-- C25: after any sequence of host data bytes and host command bytes from the initial
state (whose resend buffer is empty) the run has returned and the resend buffer holds at
most 3 bytes, hence never more than `MAX_SCAN_CODE_LEN`. -/
theorem reachable_resend_length (k : I8042Header) (bytes : List HostByte) :
    resend_buffer (initial_state k) = [] ∧
      ∃ s, run k (initial_state k) bytes = .ok s ∧
        s.resend_command_len ≤ 3 ∧ (resend_buffer s).length ≤ 3 ∧
        (resend_buffer s).length ≤ MAX_SCAN_CODE_LEN := by
  obtain ⟨s, hrun, hlen, -⟩ := run_invariant k bytes (initial_state k)
    (initial_state_invariant k).1 (initial_state_invariant k).2
  refine ⟨rfl, s, hrun, hlen, ?_, ?_⟩
  · rw [resend_buffer_length]
    exact hlen
  · rw [resend_buffer_length]
    exact Nat.le_trans hlen (by decide)

/-- C30: after any sequence of host data bytes and host command bytes from the initial
state, `handle_keyboard_data` returns for every byte, with at most 4 bytes
(`MAX_SCAN_CODE_LEN`), so neither `ASSERT(out_len <= MAX_SCAN_CODE_LEN)` fails, and
`handle_keyboard_command` returns at most 1 byte; 4 bytes are returned by a resend that
follows the 3-byte identify response. -/
theorem reachable_output_length (k : I8042Header) (bytes : List HostByte) :
    (∃ s, run k (initial_state k) bytes = .ok s ∧
        (∀ data, ∃ s1 out, handle_keyboard_data s data = .ok (s1, out) ∧
          out.length ≤ 4 ∧ out.length ≤ MAX_SCAN_CODE_LEN) ∧
        ∀ command, (handle_keyboard_command k s command).2.length ≤ 1) ∧
      ∃ s1 out, run k (initial_state k) [.data 0xF2] = .ok s1 ∧
        handle_keyboard_data s1 0xFE = .ok (s1, out) ∧ out.length = 4 := by
  obtain ⟨s, hrun, hlen, haddr⟩ := run_invariant k bytes (initial_state k)
    (initial_state_invariant k).1 (initial_state_invariant k).2
  refine ⟨⟨s, hrun, ?_, ?_⟩, ?_⟩
  · intro data
    obtain ⟨s1, out, h, hout, -⟩ := data_step_invariant s data hlen haddr
    exact ⟨s1, out, h, hout, hout⟩
  · intro command
    exact (command_step_invariant k s command haddr).1
  · exact ⟨_, _, rfl, resend_in_normal _ rfl (show (3 : Nat) < 4 from by decide), rfl⟩

/-! ### The two tables compared -/

theorem collisions_set1_explained : (collisions scancode_set1).all explained = true := by
  decide!

theorem collisions_set2_explained : (collisions scancode_set2).all explained = true := by
  decide!

theorem same_zero_pattern :
    table_positions.all (fun p =>
      decide (entry scancode_set1 p.1 p.2 = 0 ↔ entry scancode_set2 p.1 p.2 = 0)) = true := by
  decide!

theorem mem_table_positions (r c : Nat) : (r, c) ∈ table_positions ↔ r < 8 ∧ c < 13 := by
  simp [table_positions, CROS_ROW_NUM, CROS_COL_NUM]

theorem mem_collisions (table : List (List Nat)) (p q : Nat × Nat)
    (hp : p ∈ table_positions) (hq : q ∈ table_positions) (hne : p ≠ q)
    (h0 : entry table p.1 p.2 ≠ 0) (he : entry table p.1 p.2 = entry table q.1 q.2) :
    (p, q) ∈ collisions table := by
  simp only [collisions, List.mem_filter, List.pair_mem_product, decide_eq_true_eq]
  exact ⟨⟨hp, hq⟩, hne, h0, he⟩

theorem collision_explained (code_set : Nat)
    (hset : code_set = SCANCODE_SET_1 ∨ code_set = SCANCODE_SET_2) (p q : Nat × Nat)
    (h : (p, q) ∈ collisions (table_of code_set)) :
    p ∈ function_key_positions ∨ q ∈ function_key_positions ∨ (p, q) ∈ shared_key_pairs := by
  have hall : (collisions (table_of code_set)).all explained = true := by
    rcases hset with h1 | h1 <;> subst h1
    · exact collisions_set1_explained
    · exact collisions_set2_explained
  have := List.all_eq_true.mp hall (p, q) h
  simpa [explained] using this

theorem shared_pairs_collide (code_set : Nat)
    (hset : code_set = SCANCODE_SET_1 ∨ code_set = SCANCODE_SET_2) (p q : Nat × Nat)
    (h : (p, q) ∈ shared_key_pairs) :
    entry (table_of code_set) p.1 p.2 = entry (table_of code_set) q.1 q.2 := by
  simp only [shared_key_pairs, List.mem_cons, List.mem_singleton, List.not_mem_nil, or_false,
    Prod.mk.injEq] at h
  rcases hset with h1 | h1 <;> subst h1 <;>
    rcases h with ⟨rfl, rfl⟩ | ⟨rfl, rfl⟩ | ⟨rfl, rfl⟩ | ⟨rfl, rfl⟩ <;> rfl

/-- C31 (as stated, refuted): in both tables the distinct mapped positions (0, 5) and
(2, 10) hold the same make-code, 0x73 in Set 1 and 0x51 in Set 2, and the two keys are
encoded as the same byte. -/
theorem make_code_tables_are_not_injective :
    ((0, 5) : Nat × Nat) ≠ (2, 10) ∧
      entry scancode_set1 0 5 = 0x73 ∧ entry scancode_set1 2 10 = 0x73 ∧
      entry scancode_set2 0 5 = 0x51 ∧ entry scancode_set2 2 10 = 0x51 ∧
      (matrix_callback 0 5 1 SCANCODE_SET_2 (fun _ => 0) 0).map Encoded.bytes = .ok [0x51] ∧
      (matrix_callback 2 10 1 SCANCODE_SET_2 (fun _ => 0) 0).map Encoded.bytes = .ok [0x51] :=
  ⟨by decide, rfl, rfl, rfl, rfl, rfl, rfl⟩

/-- C31 (amended): within each scancode set, two distinct mapped positions, neither of them
one of the ten function-key positions, have the same make-code exactly when they are one
of the two pairs (0, 5) / (2, 10) and (3, 11) / (4, 10), which share a make-code in both
sets. -/
theorem make_codes_distinct_up_to_shared_pairs (code_set r1 c1 r2 c2 : Nat)
    (hset : code_set = SCANCODE_SET_1 ∨ code_set = SCANCODE_SET_2)
    (hr1 : r1 < 8) (hc1 : c1 < 13) (hr2 : r2 < 8) (hc2 : c2 < 13)
    (hne : (r1, c1) ≠ (r2, c2))
    (hf1 : (r1, c1) ∉ function_key_positions) (hf2 : (r2, c2) ∉ function_key_positions)
    (h0 : entry (table_of code_set) r1 c1 ≠ 0) :
    entry (table_of code_set) r1 c1 = entry (table_of code_set) r2 c2 ↔
      ((r1, c1), (r2, c2)) ∈ shared_key_pairs := by
  constructor
  · intro he
    have hmem := mem_collisions (table_of code_set) (r1, c1) (r2, c2)
      ((mem_table_positions r1 c1).mpr ⟨hr1, hc1⟩) ((mem_table_positions r2 c2).mpr ⟨hr2, hc2⟩)
      hne h0 he
    rcases collision_explained code_set hset _ _ hmem with h | h | h
    · exact absurd h hf1
    · exact absurd h hf2
    · exact h
  · intro h
    exact shared_pairs_collide code_set hset _ _ h

theorem make_codes_distinct_up_to_shared_pairs_witness :
    entry (table_of SCANCODE_SET_1) 3 11 = entry (table_of SCANCODE_SET_1) 4 10 ↔
      (((3, 11), (4, 10)) : (Nat × Nat) × (Nat × Nat)) ∈ shared_key_pairs :=
  make_codes_distinct_up_to_shared_pairs SCANCODE_SET_1 3 11 4 10 (Or.inl rfl) (by decide)
    (by decide) (by decide) (by decide) (by decide) (by decide) (by decide) (by decide)

theorem encode_succeeds_iff (row col pressed : Int) (code_set : Nat)
    (scan_code : Nat → Nat) (len : Int)
    (hr0 : 0 ≤ row) (hr : row ≤ 7) (hc0 : 0 ≤ col) (hc : col ≤ 12)
    (hset : code_set = SCANCODE_SET_1 ∨ code_set = SCANCODE_SET_2) :
    (∃ r, matrix_callback row col pressed code_set scan_code len = .ok r ∧
        r.ret = .EC_SUCCESS) ↔
      entry (table_of code_set) row.toNat col.toNat ≠ 0 := by
  rw [matrix_callback_inside row col pressed code_set scan_code len hr0 hr hc0 hc hset]
  generalize entry (table_of code_set) row.toNat col.toNat = m
  by_cases hm : m = 0
  · subst hm
    simp [matrix_callback_output]
  · by_cases hbig : m ≥ 0x0100 <;> by_cases hp : pressed = 0 <;>
      rcases hset with h | h <;> subst h <;>
      simp [matrix_callback_output, hm, hbig, hp, SCANCODE_SET_1, SCANCODE_SET_2, ASSERT]

theorem zero_pattern_at (r c : Nat) (hr : r < 8) (hc : c < 13) :
    entry scancode_set1 r c = 0 ↔ entry scancode_set2 r c = 0 := by
  have := List.all_eq_true.mp same_zero_pattern (r, c) ((mem_table_positions r c).mpr ⟨hr, hc⟩)
  simpa using this

/-- C33: for every row in 0..7 and column in 0..12 the Set 1 entry is zero exactly when the
Set 2 entry is zero, so the encoder succeeds for the position under Set 1 exactly when it
succeeds under Set 2, whatever the pressed values. -/
theorem tables_map_the_same_positions (row col pressed1 pressed2 : Int)
    (scan_code : Nat → Nat) (len : Int)
    (hr0 : 0 ≤ row) (hr : row ≤ 7) (hc0 : 0 ≤ col) (hc : col ≤ 12) :
    (entry scancode_set1 row.toNat col.toNat = 0 ↔
        entry scancode_set2 row.toNat col.toNat = 0) ∧
      ((∃ r, matrix_callback row col pressed1 SCANCODE_SET_1 scan_code len = .ok r ∧
          r.ret = .EC_SUCCESS) ↔
        ∃ r, matrix_callback row col pressed2 SCANCODE_SET_2 scan_code len = .ok r ∧
          r.ret = .EC_SUCCESS) := by
  have hz := zero_pattern_at row.toNat col.toNat (by omega) (by omega)
  refine ⟨hz, ?_⟩
  rw [encode_succeeds_iff row col pressed1 SCANCODE_SET_1 scan_code len hr0 hr hc0 hc
      (Or.inl rfl),
    encode_succeeds_iff row col pressed2 SCANCODE_SET_2 scan_code len hr0 hr hc0 hc
      (Or.inr rfl)]
  exact not_congr hz

theorem tables_map_the_same_positions_witness :
    (entry scancode_set1 (0 : Int).toNat (1 : Int).toNat = 0 ↔
        entry scancode_set2 (0 : Int).toNat (1 : Int).toNat = 0) ∧
      ((∃ r, matrix_callback 0 1 1 SCANCODE_SET_1 (fun _ => 0) 0 = .ok r ∧
          r.ret = .EC_SUCCESS) ↔
        ∃ r, matrix_callback 0 1 0 SCANCODE_SET_2 (fun _ => 0) 0 = .ok r ∧
          r.ret = .EC_SUCCESS) :=
  tables_map_the_same_positions 0 1 1 0 (fun _ => 0) 0 (by decide) (by decide) (by decide)
    (by decide)

/-! ### The enabled flag -/

theorem normal_switch_without_enabled (s : KeyboardState) (data : Nat) :
    (normal_switch (without_enabled s) data).map erase_enabled =
      (normal_switch s data).map erase_enabled := by
  unfold normal_switch
  by_cases h1 : data = I8042_CMD_GSCANSET
  · simp only [if_pos h1]
    try rfl
  by_cases h2 : data = I8042_CMD_SETLEDS ∨ data = I8042_CMD_EX_SETLEDS
  · simp only [if_neg h1, if_pos h2]
    try rfl
  by_cases h3 : data = I8042_CMD_GETID ∨ data = I8042_CMD_OK_GETID
  · simp only [if_neg h1, if_neg h2, if_pos h3]
    try rfl
  by_cases h4 : data = I8042_CMD_SETREP
  · simp only [if_neg h1, if_neg h2, if_neg h3, if_pos h4]
    try rfl
  by_cases h5 : data = I8042_CMD_ENABLE
  · simp only [if_neg h1, if_neg h2, if_neg h3, if_neg h4, if_pos h5]
    try rfl
  by_cases h6 : data = I8042_CMD_RESET_DIS
  · simp only [if_neg h1, if_neg h2, if_neg h3, if_neg h4, if_neg h5, if_pos h6]
    try rfl
  by_cases h7 : data = I8042_CMD_RESET_DEF
  · simp only [if_neg h1, if_neg h2, if_neg h3, if_neg h4, if_neg h5, if_neg h6, if_pos h7]
    try rfl
  by_cases h8 : data = I8042_CMD_RESET_BAT
  · simp only [if_neg h1, if_neg h2, if_neg h3, if_neg h4, if_neg h5, if_neg h6, if_neg h7,
      if_pos h8]
    try rfl
  by_cases h9 : data = I8042_CMD_RESEND
  · simp only [if_neg h1, if_neg h2, if_neg h3, if_neg h4, if_neg h5, if_neg h6, if_neg h7,
      if_neg h8, if_pos h9]
    have hlen : (without_enabled s).resend_command_len = s.resend_command_len := rfl
    rw [hlen]
    by_cases h : s.resend_command_len ≤ MAX_SCAN_CODE_LEN
    · simp only [if_pos h]
      try rfl
    · simp only [if_neg h]
      try rfl
  by_cases h10 : data = 0x60 ∨ data = 0x45
  · simp only [if_neg h1, if_neg h2, if_neg h3, if_neg h4, if_neg h5, if_neg h6, if_neg h7,
      if_neg h8, if_neg h9, if_pos h10]
    try rfl
  · simp only [if_neg h1, if_neg h2, if_neg h3, if_neg h4, if_neg h5, if_neg h6, if_neg h7,
      if_neg h8, if_neg h9, if_neg h10]
    try rfl

theorem data_switch_without_enabled (s : KeyboardState) (data : Nat) :
    (data_switch (without_enabled s) data).map erase_enabled =
      (data_switch s data).map erase_enabled := by
  unfold data_switch
  have hmode : (without_enabled s).data_port_state = s.data_port_state := rfl
  rw [hmode]
  cases s.data_port_state <;> simp only
  · exact normal_switch_without_enabled s data
  · by_cases h : data = SCANCODE_GET_SET
    · simp only [if_pos h]
      try rfl
    · simp only [if_neg h]
      try rfl
  · rfl
  · have haddr : (without_enabled s).controller_ram_address = s.controller_ram_address := rfl
    rw [haddr]
    by_cases h : s.controller_ram_address < 0x20
    · simp only [if_pos h]
      try rfl
    · simp only [if_neg h]
      try rfl
  · rfl
  · rfl

theorem without_enabled_save (st st1 : KeyboardState) (out : List Nat)
    (h : without_enabled st1 = without_enabled st) :
    without_enabled { st1 with
        resend_command := save_output st1.resend_command out
        resend_command_len := out.length } =
      without_enabled { st with
        resend_command := save_output st.resend_command out
        resend_command_len := out.length } := by
  cases st
  cases st1
  simp only [without_enabled, KeyboardState.mk.injEq] at h ⊢
  obtain ⟨-, h2, -, h4, h5, h6, h7, h8, h9, h10, h11, h12⟩ := h
  subst h2 h4 h5 h6 h7 h8 h9 h10 h11 h12
  simp

theorem handle_keyboard_data_without_enabled (s : KeyboardState) (data : Nat) :
    (handle_keyboard_data (without_enabled s) data).map (Prod.map without_enabled id) =
      (handle_keyboard_data s data).map (Prod.map without_enabled id) := by
  have hsw := data_switch_without_enabled s data
  unfold handle_keyboard_data
  cases h1 : data_switch s data with
  | error f =>
    rw [h1] at hsw
    cases h2 : data_switch (without_enabled s) data with
    | error g =>
      rw [h2] at hsw
      cases hsw
      rfl
    | ok r1 =>
      rw [h2] at hsw
      cases hsw
  | ok r =>
    rw [h1] at hsw
    cases h2 : data_switch (without_enabled s) data with
    | error g =>
      rw [h2] at hsw
      cases hsw
    | ok r1 =>
      rw [h2] at hsw
      obtain ⟨st, out, sv⟩ := r
      obtain ⟨st1, out1, sv1⟩ := r1
      simp only [Except.map, erase_enabled, Except.ok.injEq, DataSwitch.mk.injEq] at hsw
      obtain ⟨hst, hout, hsv⟩ := hsw
      subst hout hsv
      simp only [Except.bind]
      by_cases hc : out1.length ≠ 0 ∧ sv1 = true
      · simp only [if_pos hc]
        by_cases ha : out1.length ≤ MAX_SCAN_CODE_LEN
        · simp only [ASSERT, ha, decide_True, if_true, Except.map, Prod.map, id]
          rw [without_enabled_save st st1 out1 hst]
        · simp only [ASSERT, ha, decide_False, Bool.false_eq_true, if_false, Except.map]
      · simp only [if_neg hc]
        by_cases ha : out1.length ≤ MAX_SCAN_CODE_LEN
        · simp only [ASSERT, ha, decide_True, if_true, Except.map, Prod.map, id]
          rw [hst]
        · simp only [ASSERT, ha, decide_False, Bool.false_eq_true, if_false, Except.map]

theorem handle_keyboard_command_without_enabled (k : I8042Header) (s : KeyboardState)
    (command : Nat) :
    Prod.map without_enabled id (handle_keyboard_command k (without_enabled s) command) =
      Prod.map without_enabled id (handle_keyboard_command k s command) := by
  by_cases h1 : command = I8042_READ_CMD_BYTE
  · simp only [handle_keyboard_command, if_pos h1]
    try rfl
  by_cases h2 : command = I8042_WRITE_CMD_BYTE
  · simp only [handle_keyboard_command, if_neg h1, if_pos h2]
    try rfl
  by_cases h3 : command = k.I8042_DIS_KB
  · simp only [handle_keyboard_command, if_neg h1, if_neg h2, if_pos h3]
    try rfl
  by_cases h4 : command = k.I8042_ENA_KB
  · simp only [handle_keyboard_command, if_neg h1, if_neg h2, if_neg h3, if_pos h4]
    try rfl
  by_cases h5 : command = k.I8042_DIS_MOUSE
  · simp only [handle_keyboard_command, if_neg h1, if_neg h2, if_neg h3, if_neg h4, if_pos h5]
    try rfl
  by_cases h6 : command = k.I8042_ENA_MOUSE
  · simp only [handle_keyboard_command, if_neg h1, if_neg h2, if_neg h3, if_neg h4, if_neg h5,
      if_pos h6]
    try rfl
  by_cases h7 : command = k.I8042_ECHO_MOUSE
  · simp only [handle_keyboard_command, if_neg h1, if_neg h2, if_neg h3, if_neg h4, if_neg h5,
      if_neg h6, if_pos h7]
    try rfl
  by_cases h8 : command = k.I8042_SEND_TO_MOUSE
  · simp only [handle_keyboard_command, if_neg h1, if_neg h2, if_neg h3, if_neg h4, if_neg h5,
      if_neg h6, if_neg h7, if_pos h8]
    try rfl
  by_cases h9 : command ≥ I8042_READ_CTL_RAM ∧ command ≤ I8042_READ_CTL_RAM_END
  · simp only [handle_keyboard_command, if_neg h1, if_neg h2, if_neg h3, if_neg h4, if_neg h5,
      if_neg h6, if_neg h7, if_neg h8, if_pos h9]
    try rfl
  by_cases h10 : command ≥ I8042_WRITE_CTL_RAM ∧ command ≤ I8042_WRITE_CTL_RAM_END
  · simp only [handle_keyboard_command, if_neg h1, if_neg h2, if_neg h3, if_neg h4, if_neg h5,
      if_neg h6, if_neg h7, if_neg h8, if_neg h9, if_pos h10]
    try rfl
  · simp only [handle_keyboard_command, if_neg h1, if_neg h2, if_neg h3, if_neg h4, if_neg h5,
      if_neg h6, if_neg h7, if_neg h8, if_neg h9, if_neg h10]
    try rfl

/-- C32: the enabled flag influences nothing observable. For two states that differ at most
in `i8042_enabled`: a host data byte fails in the same way or returns the same bytes and
states that again differ at most in the flag; a host command byte returns the same bytes and
states that again differ at most in the flag; a key transition forwards the same bytes (or
hangs in the same way). In particular the press of the mapped key (1, 1) is forwarded while
the flag is 0. -/
theorem enabled_flag_is_not_observable (k : I8042Header) (s t : KeyboardState)
    (h : agree_up_to_enabled s t) :
    (∀ data, (handle_keyboard_data s data).map (Prod.map without_enabled id) =
        (handle_keyboard_data t data).map (Prod.map without_enabled id)) ∧
      (∀ command, (handle_keyboard_command k s command).2 =
          (handle_keyboard_command k t command).2 ∧
        agree_up_to_enabled (handle_keyboard_command k s command).1
          (handle_keyboard_command k t command).1) ∧
      (∀ row col is_pressed scan_code len,
        keyboard_state_changed s row col is_pressed scan_code len =
          keyboard_state_changed t row col is_pressed scan_code len) ∧
      ∀ scan_code len,
        keyboard_state_changed { initial_state k with i8042_enabled := 0 } 1 1 1 scan_code len =
          .ok [0x76] := by
  unfold agree_up_to_enabled at h
  refine ⟨?_, ?_, ?_, fun _ _ => rfl⟩
  · intro data
    rw [← handle_keyboard_data_without_enabled s data,
      ← handle_keyboard_data_without_enabled t data, h]
  · intro command
    have hs := handle_keyboard_command_without_enabled k s command
    have ht := handle_keyboard_command_without_enabled k t command
    rw [h] at hs
    have hst := hs.symm.trans ht
    constructor
    · exact (congrArg Prod.snd hst : _)
    · exact (congrArg Prod.fst hst : _)
  · intro row col is_pressed scan_code len
    have hset : (without_enabled s).scancode_set = (without_enabled t).scancode_set :=
      congrArg KeyboardState.scancode_set h
    change s.scancode_set = t.scancode_set at hset
    unfold keyboard_state_changed
    rw [hset]

theorem enabled_flag_is_not_observable_witness :
    (∀ data, (handle_keyboard_data (initial_state legacy8042) data).map
          (Prod.map without_enabled id) =
        (handle_keyboard_data { initial_state legacy8042 with i8042_enabled := 1 } data).map
          (Prod.map without_enabled id)) ∧
      (∀ command, (handle_keyboard_command legacy8042 (initial_state legacy8042) command).2 =
          (handle_keyboard_command legacy8042
            { initial_state legacy8042 with i8042_enabled := 1 } command).2 ∧
        agree_up_to_enabled
          (handle_keyboard_command legacy8042 (initial_state legacy8042) command).1
          (handle_keyboard_command legacy8042
            { initial_state legacy8042 with i8042_enabled := 1 } command).1) ∧
      (∀ row col is_pressed scan_code len,
        keyboard_state_changed (initial_state legacy8042) row col is_pressed scan_code len =
          keyboard_state_changed { initial_state legacy8042 with i8042_enabled := 1 }
            row col is_pressed scan_code len) ∧
      ∀ scan_code len,
        keyboard_state_changed { initial_state legacy8042 with i8042_enabled := 0 } 1 1 1
            scan_code len =
          .ok [0x76] :=
  enabled_flag_is_not_observable legacy8042 (initial_state legacy8042)
    { initial_state legacy8042 with i8042_enabled := 1 } rfl

end Keyboard
